import Mathlib

/-!
# Verification of the media-organizer engine

A shallow embedding, in Lean 4, of the core of the Jellyfin-Organizer
repository: the tagged-folder encoding (`src/shared/library-utils.ts`), the
duplicate detector and per-file scan step (`src/server/lib/scanner.ts`), the
path planner and `isAlreadyOrganized` predicate
(`src/server/lib/isAlreadyOrganized.ts`), the organization executor
(`src/server/lib/organizer.ts`), the single-item rescan endpoint
(`src/server/routes.ts`) and the filename parser
(`src/server/lib/filename-parser.ts`).

Modelling conventions, used throughout:

* JavaScript strings are modelled as `List Char` (`JStr`).  All string
  primitives (`indexOf`, `slice`, `substring`, `toUpperCase`, `trim`,
  `padStart`, ...) are defined below with their JS semantics on these lists.
  `String.prototype.normalize("NFKD")` is modelled as the identity; it is the
  identity on ASCII strings, and every concrete string this development
  evaluates is ASCII.
* Filesystem paths are modelled as already-normalized strings: `path.join`
  inserts a single `/` separator and `path.normalize` is the identity (the
  engine only ever joins clean absolute roots with clean relative names, so
  `normalize` never rewrites anything on the paths it sees).
* The filesystem itself is a finite association list from paths to byte
  sizes, together with a device assignment used to decide whether `rename`
  succeeds or fails with `EXDEV`.
* Asynchronous I/O results (stat sizes, TMDB responses, probed durations,
  the size actually produced by `fs.copyFile`) enter the model as explicit
  parameters of the embedded functions.
-/

/-- JavaScript strings, modelled as lists of characters. -/
abbrev JStr := List Char

/-- Embed a Lean string literal as a `JStr`. -/
def jstr (s : String) : JStr := s.data

/-- JS `\w` word characters: ASCII letters, digits and underscore. -/
def isWordChar (c : Char) : Bool := c.isAlphanum || c = '_'

/-- JS `\s` whitespace (restricted to the ASCII whitespace the engine meets). -/
def isSpaceChar (c : Char) : Bool := c = ' ' || c = '\t' || c = '\n' || c = '\r'

/-- `String.prototype.toLowerCase`, ASCII fragment. -/
def jsToLower (s : JStr) : JStr := s.map Char.toLower

/-- `String.prototype.toUpperCase`, ASCII fragment. -/
def jsToUpper (s : JStr) : JStr := s.map Char.toUpper

/-- `String.prototype.trim`: drop whitespace at both ends. -/
def jsTrim (s : JStr) : JStr :=
  ((s.dropWhile isSpaceChar).reverse.dropWhile isSpaceChar).reverse

/-- `String.prototype.indexOf` for a single character. -/
def jsIndexOfChar (c : Char) : JStr → Option Nat
  | [] => none
  | x :: xs => if x = c then some 0 else (jsIndexOfChar c xs).map (· + 1)

/-- `String.prototype.lastIndexOf` for a single character. -/
def jsLastIndexOfChar (c : Char) (s : JStr) : Option Nat :=
  (jsIndexOfChar c s.reverse).map (fun i => s.length - 1 - i)

/-- First index at which `needle` occurs in `haystack` (`indexOf` on strings). -/
def jsIndexOfSub (needle : JStr) : JStr → Option Nat
  | [] => if needle = [] then some 0 else none
  | x :: xs =>
    if needle.isPrefixOf (x :: xs) then some 0
    else (jsIndexOfSub needle xs).map (· + 1)

/-- Digits of a decimal number, as characters (`String(n)` on a Nat). -/
def natToJ (n : Nat) : JStr := (Nat.repr n).data

/-- `parseInt` on a run of decimal digits. -/
def parseIntJ (s : JStr) : Nat :=
  s.foldl (fun acc c => acc * 10 + (c.toNat - '0'.toNat)) 0

/-- `String(x).padStart(2, "0")`. -/
def padStart2 (s : JStr) : JStr :=
  if s.length < 2 then List.replicate (2 - s.length) '0' ++ s else s

/-! ## Tagged-folder encoding (`src/shared/library-utils.ts`) -/

/-- `LibraryType` from `src/shared/library-utils.ts`. -/
inductive LibraryType where
  | movies
  | tv
  | mixed
deriving DecidableEq, Repr

/-- `LibraryFolder` from `src/shared/library-utils.ts`. -/
structure LibraryFolder where
  type : LibraryType
  path : JStr
deriving DecidableEq, Repr

/-- `encodeTaggedFolder` (`src/shared/library-utils.ts`, lines 14-17):
returns `` `${prefix}:${path}` `` where the tag is `MOVIES`, `TV` or `MIXED`. -/
def encodeTaggedFolder (type : LibraryType) (path : JStr) : JStr :=
  let pfx : JStr :=
    match type with
    | .movies => jstr "MOVIES"
    | .tv => jstr "TV"
    | .mixed => jstr "MIXED"
  pfx ++ jstr ":" ++ path

/-- `decodeTaggedFolder` (`src/shared/library-utils.ts`, lines 19-36): split at
the first `:`; an unrecognised (or absent) tag yields `mixed`, and — in this
version of the file — the *entire tagged string* as the path. -/
def decodeTaggedFolder (taggedPath : JStr) : LibraryFolder :=
  match jsIndexOfChar ':' taggedPath with
  | none => ⟨.mixed, taggedPath⟩
  | some colonIndex =>
    let pfx := jsToUpper (taggedPath.take colonIndex)
    let path := taggedPath.drop (colonIndex + 1)
    if pfx = jstr "MOVIES" then ⟨.movies, path⟩
    else if pfx = jstr "TV" then ⟨.tv, path⟩
    else ⟨.mixed, taggedPath⟩

/-! ## Data model (`src/shared/schema.ts`) -/

/-- The `detectedType` values the engine writes: `"movie"`, `"tv_show"`,
`"unknown"` (the column itself is nullable text). -/
inductive MediaType where
  | movie
  | tv_show
  | unknown
deriving DecidableEq, Repr

/-- MediaItem lifecycle `status` values. -/
inductive ItemStatus where
  | pending
  | organized
  | skipped
  | error
deriving DecidableEq, Repr

/-- A `media_items` row (`src/shared/schema.ts`), restricted to the fields the
engine reads or writes.  `duration` is an integer (the probe rounds with
`Math.round`), and `duplicateOf` is a nullable text column. -/
structure MediaItem where
  id : JStr
  originalFilename : JStr
  originalPath : JStr
  fileSize : Nat
  extension : JStr
  detectedType : Option MediaType
  detectedName : Option JStr
  cleanedName : Option JStr
  year : Option Nat
  season : Option Nat
  episode : Option Nat
  episodeEnd : Option Nat
  episodeTitle : Option JStr
  duration : Option Int
  isSeasonPack : Bool
  status : ItemStatus
  destinationPath : Option JStr
  duplicateOf : Option JStr
  manualOverride : Bool
  confidence : Int
  tmdbId : Option Nat
  tmdbName : Option JStr
  posterPath : Option JStr
deriving DecidableEq, Repr

/-- JS truthiness of a nullable number (`0`, like `null`, is falsy). -/
def jsTruthyNat (o : Option Nat) : Bool :=
  match o with
  | some n => n ≠ 0
  | none => false

/-- JS truthiness of a nullable string (`""`, like `null`, is falsy). -/
def jsTruthyStr (o : Option JStr) : Bool :=
  match o with
  | some s => s ≠ []
  | none => false

/-- JS `a || b` on a nullable string: keep `a` when it is truthy. -/
def jsOrStr (a : Option JStr) (b : JStr) : JStr :=
  match a with
  | some s => if s = [] then b else s
  | none => b

/-! ## Duplicate detector (`src/server/lib/scanner.ts`, lines 14-178) -/

/-- Inner loop of `levenshteinDistance`: given the previous DP row (from the
second entry on), the diagonal and left neighbours, produce the rest of the
current row.  The recurrence is the one of `scanner.ts` lines 40-52. -/
def levGo (bc : Char) : List Char → List Nat → Nat → Nat → List Nat
  | [], _, _, _ => []
  | _ :: _, [], _, _ => []
  | ac :: arest, up :: uprest, diag, left =>
    let v := if bc = ac then diag else min (min diag left) up + 1
    v :: levGo bc arest uprest up v

/-- `levenshteinDistance` (`scanner.ts`, lines 30-55): the classic DP matrix,
folded row by row over `b`. -/
def levenshteinDistance (a b : JStr) : Nat :=
  let row0 := List.range (a.length + 1)
  let finalRow := b.foldl
    (fun row bc =>
      match row with
      | [] => []
      | top :: rest => (top + 1) :: levGo bc a rest top (top + 1))
    row0
  finalRow.getLastD 0

/-- `stringSimilarity` (`scanner.ts`, lines 15-28): Levenshtein ratio in exact
rational arithmetic (the JS doubles never matter at the 0.90 / 0.05 thresholds
this file evaluates). -/
def stringSimilarity (a b : JStr) : ℚ :=
  if a = b then 1
  else
    let aLower := jsToLower a
    let bLower := jsToLower b
    if aLower = bLower then 1
    else
      let longer := if aLower.length > bLower.length then aLower else bLower
      let shorter := if aLower.length > bLower.length then bLower else aLower
      if longer.length = 0 then 1
      else ((longer.length : ℚ) - levenshteinDistance longer shorter) / longer.length

/-- `DuplicateCheckParams` (`scanner.ts`, lines 57-67). -/
structure DuplicateCheckParams where
  tmdbId : Option Nat
  season : Option Nat
  episode : Option Nat
  fileSize : Nat
  duration : Option Int
  cleanedName : Option JStr
  tmdbName : Option JStr
  year : Option Nat
  detectedType : Option MediaType
deriving DecidableEq, Repr

/-- Name normalization inside the detector's check 2 (`scanner.ts` line 107):
lowercase, strip everything outside `[a-z0-9]` (the trailing `.trim()` is then
a no-op). -/
def dupNormalizeName (s : JStr) : JStr :=
  (jsToLower s).filter (fun c => c.isLower || c.isDigit)

/-- `identityMatch` of `findDuplicate`'s loop body (`scanner.ts`, lines
81-132): a TMDB-id match (with season+episode agreement for TV), or a
normalized-name match together with a year (movies) or season+episode (TV)
match. -/
def dupIdentityMatch (p : DuplicateCheckParams) (item : MediaItem) : Bool :=
  -- check 1: TMDB ID match
  let identity1 : Bool :=
    if jsTruthyNat p.tmdbId && jsTruthyNat item.tmdbId && item.tmdbId = p.tmdbId then
      if p.detectedType = some .tv_show then
        p.season.isSome && p.episode.isSome && item.season.isSome && item.episode.isSome &&
          item.season = p.season && item.episode = p.episode
      else true
    else false
  -- check 2: normalized name + year / season-episode match
  if identity1 then true
  else
    let existingName := jsOrStr item.cleanedName (jsOrStr item.detectedName (jsOrStr item.tmdbName []))
    let newName := jsOrStr p.cleanedName (jsOrStr p.tmdbName [])
    if existingName ≠ [] && newName ≠ [] then
      let nE := dupNormalizeName existingName
      let nN := dupNormalizeName newName
      let namesMatch := nE = nN ||
        (decide (nE.length > 3) && decide (nN.length > 3) &&
          ((jsIndexOfSub nN nE).isSome || (jsIndexOfSub nE nN).isSome))
      if namesMatch then
        if p.detectedType = some .movie then
          jsTruthyNat p.year && jsTruthyNat item.year && item.year = p.year
        else if p.detectedType = some .tv_show then
          p.season.isSome && p.episode.isSome && item.season.isSome && item.episode.isSome &&
            item.season = p.season && item.episode = p.episode
        else false
      else false
    else false

/-- `similarityMatch` of `findDuplicate`'s loop body (`scanner.ts`, lines
136-169): fallback-chain name similarity above 0.90, TMDB-name similarity
above 0.90, durations within ±2 seconds, or — only when a duration is
missing — file sizes within 5% of the larger. -/
def dupSimilarityMatch (p : DuplicateCheckParams) (item : MediaItem) : Bool :=
  let existingNameForSim := jsOrStr item.cleanedName (jsOrStr item.detectedName (jsOrStr item.tmdbName []))
  let newNameForSim := jsOrStr p.cleanedName (jsOrStr p.tmdbName [])
  -- check A: string similarity > 0.90
  let simA : Bool :=
    existingNameForSim ≠ [] && newNameForSim ≠ [] &&
      stringSimilarity existingNameForSim newNameForSim > 9 / 10
  -- also check TMDB name similarity
  let simTmdb : Bool :=
    match item.tmdbName, p.tmdbName with
    | some a, some b => a ≠ [] && b ≠ [] && stringSimilarity a b > 9 / 10
    | _, _ => false
  -- check B: duration within ±2 seconds
  let simB : Bool :=
    match p.duration, item.duration with
    | some d, some d' => (d' - d).natAbs ≤ 2
    | _, _ => false
  -- fallback check C: file size within 5% (when duration not available)
  let simC : Bool :=
    (p.duration.isNone || item.duration.isNone) &&
      (let sizeDiff : Nat := max item.fileSize p.fileSize - min item.fileSize p.fileSize
       let maxSize : Nat := max (if item.fileSize = 0 then 1 else item.fileSize) p.fileSize
       (sizeDiff : ℚ) / (maxSize : ℚ) < 5 / 100)
  simA || simTmdb || simB || simC

/-- The body of `findDuplicate`'s `for` loop (`scanner.ts`, lines 75-174):
does the stored `item` match the candidate described by `p`?  The loop's
`continue` statements become `false` branches; both identity and similarity
must hold. -/
def isDuplicatePair (p : DuplicateCheckParams) (item : MediaItem) : Bool :=
  if item.detectedType ≠ p.detectedType then false
  else if jsTruthyStr item.duplicateOf then false
  else if !dupIdentityMatch p item then false
  else dupIdentityMatch p item && dupSimilarityMatch p item

/-- `findDuplicate` (`scanner.ts`, lines 71-178): over the stored items in
natural order, return the id of the first item the candidate matches.  The
early-`return` loop is `List.find?` of the per-item condition. -/
def findDuplicate (p : DuplicateCheckParams) (items : List MediaItem) : Option JStr :=
  (items.find? (fun item => isDuplicatePair p item)).map (fun item => item.id)

/-! ## Path utilities (Node `path`, on model-normalized strings) -/

/-- `path.sep`-joined concatenation: `path.join(a, b)` on clean segments. -/
def pathJoin (a b : JStr) : JStr := a ++ jstr "/" ++ b

/-- `path.normalize`: the identity on the already-normalized paths of the
model (no `.`/`..` segments, no doubled separators). -/
def pathNormalize (p : JStr) : JStr := p

/-- `s.startsWith(pre)`. -/
def jsStartsWith (s pre : JStr) : Bool := pre.isPrefixOf s

/-- `path.dirname`. -/
def pathDirname (p : JStr) : JStr :=
  match jsLastIndexOfChar '/' p with
  | none => jstr "."
  | some i => if i = 0 then jstr "/" else p.take i

/-- `path.basename`. -/
def pathBasename (p : JStr) : JStr :=
  match jsLastIndexOfChar '/' p with
  | none => p
  | some i => p.drop (i + 1)

/-- `path.extname`: the suffix of the basename from its last `.` (empty when
the basename has no dot or only a leading dot). -/
def pathExtname (p : JStr) : JStr :=
  let base := pathBasename p
  match jsLastIndexOfChar '.' base with
  | none => []
  | some i => if i = 0 then [] else base.drop i

/-- `path.isAbsolute` (POSIX). -/
def pathIsAbsolute (p : JStr) : Bool :=
  match p with
  | '/' :: _ => true
  | _ => false

/-- Split a path on `/`, keeping empty segments (JS `p.split(path.sep)`). -/
def splitOnCharJ (c : Char) : JStr → List JStr
  | [] => [[]]
  | x :: xs =>
    if x = c then [] :: splitOnCharJ c xs
    else
      match splitOnCharJ c xs with
      | [] => [[x]]
      | h :: t => (x :: h) :: t

/-- `path.relative(from, to)` for absolute POSIX paths: drop the common
segment-wise prefix, climb with `..` for what is left of `from`, then descend
into what is left of `to`. -/
def pathRelative (fromP toP : JStr) : JStr :=
  let fromSegs := (splitOnCharJ '/' fromP).filter (fun s => s ≠ [])
  let toSegs := (splitOnCharJ '/' toP).filter (fun s => s ≠ [])
  let rec dropCommon : List JStr → List JStr → List JStr × List JStr
    | a :: as, b :: bs => if a = b then dropCommon as bs else (a :: as, b :: bs)
    | as, bs => (as, bs)
  let (fromRest, toRest) := dropCommon fromSegs toSegs
  let segs := fromRest.map (fun _ => jstr "..") ++ toRest
  (segs.intersperse (jstr "/")).foldl (· ++ ·) []

/-! ## Path planner (`computeDestinationPath` module, imported by
`src/server/lib/isAlreadyOrganized.ts`) -/

/-- `ComputeDestinationParams`. -/
structure ComputeDestinationParams where
  detectedType : Option MediaType
  name : JStr
  year : Option Nat
  season : Option Nat
  episode : Option Nat
  episodeEnd : Option Nat
  extension : JStr
deriving DecidableEq, Repr

/-- `DestinationSettings`. -/
structure DestinationSettings where
  moviesDestination : Option JStr
  tvShowsDestination : Option JStr
deriving DecidableEq, Repr

/-- `computeDestinationPath`: the pure path planner.
Movie: `{root}/{name} ({year or Unknown})/{name} ({year or Unknown}).{ext}`;
TV: `{root}/{name}/Season {SS}/{name} - S{SS}E{EE}[-E{EE2}].{ext}`. -/
def computeDestinationPath (params : ComputeDestinationParams)
    (settings : DestinationSettings) : Option JStr :=
  if params.detectedType = some .movie then
    if !jsTruthyStr settings.moviesDestination then none
    else
      let yearStr := if jsTruthyNat params.year then natToJ (params.year.getD 0) else jstr "Unknown"
      let folderName := params.name ++ jstr " (" ++ yearStr ++ jstr ")"
      let fileName := params.name ++ jstr " (" ++ yearStr ++ jstr ")." ++ params.extension
      some (pathJoin (pathJoin (settings.moviesDestination.getD []) folderName) fileName)
  else if params.detectedType = some .tv_show then
    if !jsTruthyStr settings.tvShowsDestination then none
    else
      let seasonNum := padStart2 (natToJ (params.season.getD 1))
      let episodeNum := padStart2 (natToJ (params.episode.getD 1))
      let episodeEndStr :=
        if jsTruthyNat params.episodeEnd then jstr "-E" ++ padStart2 (natToJ (params.episodeEnd.getD 0))
        else []
      let seasonFolder := jstr "Season " ++ seasonNum
      let fileName := params.name ++ jstr " - S" ++ seasonNum ++ jstr "E" ++ episodeNum ++
        episodeEndStr ++ jstr "." ++ params.extension
      some (pathJoin (pathJoin (pathJoin (settings.tvShowsDestination.getD []) params.name) seasonFolder) fileName)
  else none

/-- `getDestinationRoot`. -/
def getDestinationRoot (detectedType : Option MediaType)
    (settings : DestinationSettings) : Option JStr :=
  if detectedType = some .movie then settings.moviesDestination
  else if detectedType = some .tv_show then settings.tvShowsDestination
  else none

/-! ## `isAlreadyOrganized` (`src/server/lib/isAlreadyOrganized.ts`) -/

/-- `^Season\s+(\d+)$` (case-insensitive) on a folder name; returns the season
number. -/
def matchSeasonFolder (dirName : JStr) : Option Nat :=
  let s := jsToLower dirName
  if (jstr "season").isPrefixOf s then
    let rest := s.drop 6
    let sp := rest.takeWhile isSpaceChar
    let digits := rest.dropWhile isSpaceChar
    if sp ≠ [] && digits ≠ [] && digits.all Char.isDigit then some (parseIntJ digits)
    else none
  else none

/-- Tail of `^(.+?)\s*-\s*S(\d+)E(\d+)` after the lazy group: `\s*-\s*S` then
digits then `E` then digits (case-insensitive; the digit runs are greedy and,
being followed by non-digits, maximal-munch is exact). -/
def tvFileTail (t : JStr) : Option (Nat × Nat) :=
  match t.dropWhile isSpaceChar with
  | '-' :: t2 =>
    (match t2.dropWhile isSpaceChar with
     | c :: t4 =>
       if c.toLower = 's' then
         let ds := t4.takeWhile Char.isDigit
         (match t4.dropWhile Char.isDigit with
          | e :: t6 =>
            if ds ≠ [] && e.toLower = 'e' then
              let es := t6.takeWhile Char.isDigit
              if es ≠ [] then some (parseIntJ ds, parseIntJ es) else none
            else none
          | [] => none)
       else none
     | [] => none)
  | _ => none

/-- `fileName.match(/^(.+?)\s*-\s*S(\d+)E(\d+)/i)`: the lazy `(.+?)` takes the
shortest non-empty prefix whose remainder matches `tvFileTail`. -/
def matchTvFile : JStr → Option (Nat × Nat)
  | [] => none
  | _ :: rest =>
    match tvFileTail rest with
    | some r => some r
    | none => matchTvFile rest

/-- Tail of `^(.+?)\s*\((\d{4})\)\.`: `\s*` then a parenthesized 4-digit year
followed by a literal dot. -/
def movieFileTail (t : JStr) : Option Nat :=
  match t.dropWhile isSpaceChar with
  | '(' :: a :: b :: c :: d :: ')' :: '.' :: _ =>
    if [a, b, c, d].all Char.isDigit then some (parseIntJ [a, b, c, d]) else none
  | _ => none

/-- `fileName.match(/^(.+?)\s*\((\d{4})\)\./)`. -/
def matchMovieFile : JStr → Option Nat
  | [] => none
  | _ :: rest =>
    match movieFileTail rest with
    | some r => some r
    | none => matchMovieFile rest

/-- Tail of `^(.+?)\s*\((\d{4})\)$`: `\s*` then a parenthesized 4-digit year
ending the string. -/
def movieFolderTail (t : JStr) : Option Nat :=
  match t.dropWhile isSpaceChar with
  | '(' :: a :: b :: c :: d :: [')'] =>
    if [a, b, c, d].all Char.isDigit then some (parseIntJ [a, b, c, d]) else none
  | _ => none

/-- `dirName.match(/^(.+?)\s*\((\d{4})\)$/)`. -/
def matchMovieFolder : JStr → Option Nat
  | [] => none
  | _ :: rest =>
    match movieFolderTail rest with
    | some r => some r
    | none => matchMovieFolder rest

/-- `matchesJellyfinStructure` (`isAlreadyOrganized.ts`, lines 79-133). -/
def matchesJellyfinStructure (fullPath : JStr) (detectedType : Option MediaType)
    (year : Option Nat) (season : Option Nat) (episode : Option Nat) : Bool :=
  let parts := splitOnCharJ '/' fullPath
  let fileName := parts.getLastD []
  let dirName? : Option JStr :=
    if parts.length ≥ 2 then parts.get? (parts.length - 2) else none
  if detectedType = some .tv_show then
    match matchTvFile fileName with
    | none => false
    | some (fileSeason, fileEpisode) =>
      match dirName?.bind matchSeasonFolder with
      | none => false
      | some folderSeason =>
        if fileSeason ≠ folderSeason then false
        else if season.isSome && season ≠ some fileSeason then false
        else if episode.isSome && episode ≠ some fileEpisode then false
        else true
  else if detectedType = some .movie then
    match matchMovieFile fileName with
    | none => false
    | some fileYear =>
      match dirName?.bind matchMovieFolder with
      | none => false
      | some folderYear =>
        if folderYear ≠ fileYear then false
        else if year.isSome && year ≠ some fileYear then false
        else true
  else false

/-- `IsAlreadyOrganizedParams`. -/
structure IsAlreadyOrganizedParams where
  originalFullPath : JStr
  detectedType : Option MediaType
  name : JStr
  year : Option Nat
  season : Option Nat
  episode : Option Nat
  episodeEnd : Option Nat
  extension : JStr
  settings : DestinationSettings
deriving DecidableEq, Repr

/-- `IsAlreadyOrganizedResult`. -/
structure IsAlreadyOrganizedResult where
  organized : Bool
  reason : JStr
  resolvedDestPath : Option JStr
deriving DecidableEq, Repr

/-- `isAlreadyOrganized` (`isAlreadyOrganized.ts`, lines 22-77). -/
def isAlreadyOrganized (params : IsAlreadyOrganizedParams) : IsAlreadyOrganizedResult :=
  let normalizedOriginal := pathNormalize params.originalFullPath
  let destRoot? := getDestinationRoot params.detectedType params.settings
  if !jsTruthyStr destRoot? then
    ⟨false, jstr "No destination configured for this type", none⟩
  else
    let destRoot := destRoot?.getD []
    let normalizedDestRoot := pathNormalize destRoot
    let expectedDestPath := computeDestinationPath
      ⟨params.detectedType, params.name, params.year, params.season, params.episode,
        params.episodeEnd, params.extension⟩ params.settings
    if (match expectedDestPath with
        | some expected => decide (normalizedOriginal = pathNormalize expected)
        | none => false) then
      ⟨true, jstr "File is already at expected destination path", some params.originalFullPath⟩
    else if jsStartsWith normalizedOriginal (normalizedDestRoot ++ jstr "/") ||
        normalizedOriginal = normalizedDestRoot then
      if matchesJellyfinStructure params.originalFullPath params.detectedType
          params.year params.season params.episode then
        ⟨true, jstr "File is inside destination root and matches Jellyfin structure",
          some params.originalFullPath⟩
      else
        ⟨true, jstr "File is inside destination root folder", some params.originalFullPath⟩
    else
      ⟨false, jstr "File is not in destination structure", none⟩

/-! ## Filesystem model

The organizer interacts with the filesystem through `access`, `stat`,
`rename`, `copyFile`, `unlink` and `mkdir`.  The model is a finite map from
paths to byte sizes plus a device assignment; `rename` fails with `EXDEV`
exactly when source and target live on different devices, and `mkdir
-p` is a no-op (directories are implicit).  `copyFile`'s outcome enters as an
explicit `copiedSize` parameter: a faithful copy yields the source's size, an
interrupted or inconsistent copy yields some other size — exactly the
situation the executor's size verification guards against. -/

/-- The modelled filesystem. -/
structure FS where
  files : List (JStr × Nat)
  dev : JStr → Nat

/-- `stat`/`access`: look up a path's size. -/
def FS.lookup (fsys : FS) (p : JStr) : Option Nat :=
  (fsys.files.find? (fun e => e.1 = p)).map (fun e => e.2)

/-- Write (create or overwrite) a file of size `sz` at `p`. -/
def FS.set (fsys : FS) (p : JStr) (sz : Nat) : FS :=
  { fsys with files := (p, sz) :: fsys.files.filter (fun e => e.1 ≠ p) }

/-- `unlink`. -/
def FS.erase (fsys : FS) (p : JStr) : FS :=
  { fsys with files := fsys.files.filter (fun e => e.1 ≠ p) }

/-- The `rename` failures the executor distinguishes. -/
inductive RenameErr where
  | exdev
  | noEnt
deriving DecidableEq, Repr

/-- `fs.promises.rename`: moves the mapping, failing with `EXDEV` across
devices and `ENOENT` on a missing source. -/
def FS.rename (fsys : FS) (src dst : JStr) : Except RenameErr FS :=
  match fsys.lookup src with
  | none => .error .noEnt
  | some sz =>
    if fsys.dev src ≠ fsys.dev dst then .error .exdev
    else .ok ((fsys.erase src).set dst sz)

/-! ## Organization executor (`src/server/lib/organizer.ts`) -/

/-- Result of `handleCollision`: the path to use, whether the item was
skipped as a duplicate, and the item as left in the store (the collision
handler itself performs the `skipped`/`duplicateOf` update). -/
structure CollisionOut where
  path : JStr
  skipped : Bool
  item : MediaItem

/-- The `{base} (copy N){ext}` candidate of `handleCollision`. -/
def copyName (base ext : JStr) (counter : Nat) : JStr :=
  base ++ jstr " (copy " ++ natToJ counter ++ jstr ")" ++ ext

/-- The auto-rename loop of `handleCollision` (lines 379-390): try counters
2, 3, ... until a free name is found.  There are more candidates than files,
so a free name always exists within `files.length + 1` tries; the fallback
arm is unreachable and only keeps the definition total. -/
def findFreeCopyName (fsys : FS) (base ext : JStr) : JStr :=
  match (List.range (fsys.files.length + 1)).find?
      (fun k => (fsys.lookup (copyName base ext (k + 2))).isNone) with
  | some k => copyName base ext (k + 2)
  | none => copyName base ext (fsys.files.length + 2)

/-- `handleCollision` (`organizer.ts`, lines 359-395).  The destination is
free: use it.  It holds a file of the same size: mark the item skipped with
`duplicateOf := destPath` (note: a *path*, not an item id) and skip the move.
Otherwise: auto-rename with a `(copy N)` suffix.  `destPath.slice(0,
-ext.length)` is the empty string when `ext` is empty, as in JS. -/
def handleCollision (destPath : JStr) (item : MediaItem) (fsys : FS) : CollisionOut :=
  match fsys.lookup destPath with
  | none => ⟨destPath, false, item⟩
  | some existingSize =>
    if existingSize = item.fileSize then
      ⟨destPath, true, { item with status := .skipped, duplicateOf := some destPath }⟩
    else
      let ext := pathExtname destPath
      let base := if ext.length = 0 then [] else destPath.take (destPath.length - ext.length)
      ⟨findFreeCopyName fsys base ext, false, item⟩

/-- Destination computation inlined in `organizeItem` (`organizer.ts`, lines
254-282): `tmdbName || cleanedName || detectedName || "Unknown"`, movie and
TV layouts, per-type destination-root checks. -/
def organizeDest (item : MediaItem) (settings : DestinationSettings) : Except JStr JStr :=
  if item.detectedType = some .movie then
    if !jsTruthyStr settings.moviesDestination then
      .error (jstr "Movies destination not configured")
    else
      let name := jsOrStr item.tmdbName (jsOrStr item.cleanedName (jsOrStr item.detectedName (jstr "Unknown")))
      let year := if jsTruthyNat item.year then natToJ (item.year.getD 0) else jstr "Unknown"
      let folderName := name ++ jstr " (" ++ year ++ jstr ")"
      let fileName := name ++ jstr " (" ++ year ++ jstr ")." ++ item.extension
      .ok (pathJoin (pathJoin (settings.moviesDestination.getD []) folderName) fileName)
  else if item.detectedType = some .tv_show then
    if !jsTruthyStr settings.tvShowsDestination then
      .error (jstr "TV shows destination not configured")
    else
      let name := jsOrStr item.tmdbName (jsOrStr item.cleanedName (jsOrStr item.detectedName (jstr "Unknown")))
      let season := padStart2 (natToJ (item.season.getD 1))
      let episode := padStart2 (natToJ (item.episode.getD 1))
      let episodeEnd :=
        if jsTruthyNat item.episodeEnd then jstr "-E" ++ padStart2 (natToJ (item.episodeEnd.getD 0))
        else []
      let seasonFolder := jstr "Season " ++ season
      let fileName := name ++ jstr " - S" ++ season ++ jstr "E" ++ episode ++ episodeEnd ++
        jstr "." ++ item.extension
      .ok (pathJoin (pathJoin (pathJoin (settings.tvShowsDestination.getD []) name) seasonFolder) fileName)
  else .error (jstr "Unknown media type")

/-- The path planner's view of an item: the name fallback chain and parsed
attributes `organizeItem` feeds into the destination layout. -/
def itemPlanParams (item : MediaItem) : ComputeDestinationParams :=
  ⟨item.detectedType,
    jsOrStr item.tmdbName (jsOrStr item.cleanedName (jsOrStr item.detectedName (jstr "Unknown"))),
    item.year, item.season, item.episode, item.episodeEnd, item.extension⟩

/-- `plan(i)`: the planned destination path of an item, via the pure path
planner. -/
def planOfItem (item : MediaItem) (settings : DestinationSettings) : Option JStr :=
  computeDestinationPath (itemPlanParams item) settings

/-- Result record of `organizeItem`, together with the filesystem and the
item as left in the store. -/
structure OrgOut where
  success : Bool
  destinationPath : Option JStr
  errMsg : Option JStr
  skipped : Bool
  fs : FS
  item : MediaItem

/-- The second safety guard of `organizeItem` (`organizer.ts`, lines
292-302): block the move when the destination lies strictly inside the
source file's containing directory (`startsWith` tests on the normalized
paths plus a `path.relative` check). -/
def destInsideSourceGuard (normalizedSource normalizedDest : JStr) : Bool :=
  let sourceDir := pathDirname normalizedSource
  jsStartsWith normalizedDest (sourceDir ++ jstr "/") &&
  jsStartsWith (pathDirname normalizedDest) sourceDir &&
  (let relPath := pathRelative sourceDir normalizedDest
   !jsStartsWith relPath (jstr "..") && !pathIsAbsolute relPath)

/-- `organizeItem` (`organizer.ts`, lines 241-357): source-existence check,
destination computation, safety guards, collision handling, then the
always-move protocol (rename to `.tmp`, EXDEV fallback of copy → size-verify
→ unlink source, final rename into place).  Error messages that interpolate
a JS exception object (`Failed to move file: ${error}`) are modelled by
their constant prefix. -/
def organizeItem (item : MediaItem) (settings : DestinationSettings)
    (fsys : FS) (copiedSize : Nat) : OrgOut :=
  let sourcePath := pathJoin item.originalPath item.originalFilename
  if (fsys.lookup sourcePath).isNone then
    ⟨false, none, some (jstr "Source file not accessible"), false, fsys, item⟩
  else
    match organizeDest item settings with
    | .error e => ⟨false, none, some e, false, fsys, item⟩
    | .ok destPath0 =>
      let normalizedSource := pathNormalize sourcePath
      let normalizedDest := pathNormalize destPath0
      if normalizedSource = normalizedDest then
        ⟨false, none, some (jstr "Source and destination are the same"), false, fsys, item⟩
      else
        if destInsideSourceGuard normalizedSource normalizedDest then
          ⟨false, none, some (jstr "Destination is inside source directory"), false, fsys, item⟩
        else
          let coll := handleCollision destPath0 item fsys
          if coll.skipped then
            ⟨true, some coll.path, none, true, fsys, coll.item⟩
          else
            let destinationPath := coll.path
            -- mkdir(destDir, { recursive: true }): a no-op in the model
            let tempPath := destinationPath ++ jstr ".tmp"
            match fsys.rename sourcePath tempPath with
            | .ok fs1 =>
              (match fs1.rename tempPath destinationPath with
               | .ok fs2 => ⟨true, some destinationPath, none, false, fs2, item⟩
               | .error _ => ⟨false, none, some (jstr "Failed to move file"), false, fs1, item⟩)
            | .error .exdev =>
              -- cross-device move: copy → verify → delete source
              let fs1 := fsys.set tempPath copiedSize
              let sourceSize := (fs1.lookup sourcePath).getD 0
              let tempSize := (fs1.lookup tempPath).getD 0
              if sourceSize ≠ tempSize then
                ⟨false, none, some (jstr "Copy verification failed - file sizes don\x27t match"),
                  false, fs1.erase tempPath, item⟩
              else
                let fs2 := fs1.erase sourcePath
                match fs2.rename tempPath destinationPath with
                | .ok fs3 => ⟨true, some destinationPath, none, false, fs3, item⟩
                | .error _ => ⟨false, none, some (jstr "Failed to move file"), false, fs2, item⟩
            | .error .noEnt =>
              ⟨false, none, some (jstr "Failed to move file"), false, fsys, item⟩

/-- `OrganizationLog.action` values. -/
inductive LogAction where
  | move
  | skip
  | error
deriving DecidableEq, Repr

/-- An `organization_logs` row. -/
structure LogEntry where
  mediaItemId : JStr
  action : LogAction
  sourcePath : JStr
  destinationPath : Option JStr
  errMsg : Option JStr
deriving DecidableEq, Repr

/-- State after one iteration of `runOrganize`'s loop. -/
structure StepOut where
  item : MediaItem
  fs : FS
  logs : List LogEntry
  successCount : Nat
  failedCount : Nat

/-- One iteration of `runOrganize`'s per-item loop (`organizer.ts`, lines
84-219) for an item present in the store: skip non-pending items and season
packs untouched; on a skipped duplicate append a `skip` log and count a
success; on a successful move set `status := organized` and
`destinationPath`, append a `move` log and count a success; on failure set
`status := error`, append an `error` log and count a failure.  (The
TvSeriesRecord / MovieRecord bookkeeping of lines 139-164 is outside the
claims and not modelled.) -/
def processItem (item : MediaItem) (settings : DestinationSettings)
    (fsys : FS) (copiedSize : Nat) : StepOut :=
  if item.status ≠ .pending || item.isSeasonPack then
    ⟨item, fsys, [], 0, 0⟩
  else
    let srcPath := pathJoin item.originalPath item.originalFilename
    let r := organizeItem item settings fsys copiedSize
    if r.success then
      if r.skipped then
        ⟨r.item, r.fs,
          [⟨item.id, .skip, srcPath, r.destinationPath,
            some (jstr "Duplicate file already exists at destination")⟩],
          1, 0⟩
      else
        ⟨{ r.item with status := .organized, destinationPath := r.destinationPath }, r.fs,
          [⟨item.id, .move, srcPath, r.destinationPath, none⟩], 1, 0⟩
    else
      ⟨{ r.item with status := .error }, r.fs,
        [⟨item.id, .error, srcPath, none, r.errMsg⟩], 0, 1⟩

/-! ## Filename parser (`src/server/lib/filename-parser.ts`)

The regexes of the parser are translated pattern by pattern into scanning
functions on `List Char`.  JS `String.prototype.match` (without the `g` flag)
returns the leftmost match, with greedy quantifiers; each translation
documents its regex.  For the digit runs below, a greedy run followed by a
character that cannot be a digit needs no backtracking, while counted runs
(`\d{1,2}`, `\d{1,3}`) followed by a word boundary are enumerated
longest-first exactly as the backtracking engine does. -/

/-- Is position `i` of `s` a word-boundary position (`\b`)?  True when
exactly one of the characters around the gap before index `i` is a `\w`
character; positions outside the string count as non-word. -/
def isBoundary (s : JStr) (i : Nat) : Bool :=
  let wordAt : Nat → Bool := fun j =>
    match s.get? j with
    | some c => isWordChar c
    | none => false
  if i = 0 then wordAt 0
  else wordAt (i - 1) != wordAt i

/-- Greedy run of characters satisfying `p` starting at `i`: its length. -/
def runLength (p : Char → Bool) (s : JStr) (i : Nat) : Nat :=
  ((s.drop i).takeWhile p).length

/-- The digits of the run `[i, i+len)`. -/
def digitsAt (s : JStr) (i len : Nat) : JStr := (s.drop i).take len

/-- Case-insensitive literal match of `lit` at position `i` (the literals
below are lowercase). -/
def litAtCI (s : JStr) (i : Nat) (lit : JStr) : Bool :=
  lit.isPrefixOf (jsToLower (s.drop i))

/-- A successful TV-pattern match: start index, matched length, season,
episode, optional episode end. -/
structure TvMatch where
  start : Nat
  len : Nat
  season : Nat
  episode : Nat
  episodeEnd : Option Nat
deriving DecidableEq, Repr

/-- `TV_PATTERNS[0]`:
`\b[sS](\d{1,2})[\.\-\s]*[eE][pP]?\s*(\d{1,3})(?:[\-eE]+(\d{1,3}))?\b`
attempted at position `i`.  The digit-count choices are tried longest-first,
as the greedy engine does; the `[\.\-\s]*`, `\s*` and `[\-eE]+` runs are
maximal (each is followed by a character class disjoint from its own). -/
def tvPat0At (s : JStr) (i : Nat) : Option TvMatch :=
  if !(isBoundary s i) then none
  else
    match s.get? i with
    | some c0 =>
      if c0.toLower ≠ 's' then none
      else
        let tryD1 : Nat → Option TvMatch := fun d1 =>
          if runLength Char.isDigit s (i + 1) < d1 then none
          else
            let p1 := i + 1 + d1
            let sep := runLength (fun c => c = '.' || c = '-' || isSpaceChar c) s p1
            let p2 := p1 + sep
            match s.get? p2 with
            | some ce =>
              if ce.toLower ≠ 'e' then none
              else
                let p3 := match s.get? (p2 + 1) with
                  | some cp => if cp.toLower = 'p' then p2 + 2 else p2 + 1
                  | none => p2 + 1
                let ws := runLength isSpaceChar s p3
                let p4 := p3 + ws
                let dRun := runLength Char.isDigit s p4
                let tryD2 : Nat → Option TvMatch := fun d2 =>
                  if dRun < d2 then none
                  else
                    let p5 := p4 + d2
                    -- optional (?:[\-eE]+(\d{1,3}))?, then \b
                    let eRun := runLength (fun c => c = '-' || c.toLower = 'e') s p5
                    let withOpt : Option TvMatch :=
                      if eRun = 0 then none
                      else
                        let p6 := p5 + eRun
                        let dRun2 := runLength Char.isDigit s p6
                        let tryD3 : Nat → Option TvMatch := fun d3 =>
                          if dRun2 < d3 then none
                          else if isBoundary s (p6 + d3) then
                            some ⟨i, p6 + d3 - i, parseIntJ (digitsAt s (i + 1) d1),
                              parseIntJ (digitsAt s p4 d2), some (parseIntJ (digitsAt s p6 d3))⟩
                          else none
                        (tryD3 3).orElse (fun _ => (tryD3 2).orElse (fun _ => tryD3 1))
                    (withOpt.orElse (fun _ =>
                      if d2 ≤ dRun && isBoundary s (p4 + d2) then
                        some ⟨i, p5 - i, parseIntJ (digitsAt s (i + 1) d1),
                          parseIntJ (digitsAt s p4 d2), none⟩
                      else none))
                (tryD2 3).orElse (fun _ => (tryD2 2).orElse (fun _ => tryD2 1))
            | none => none
        (tryD1 2).orElse (fun _ => tryD1 1)
    | none => none

/-- `TV_PATTERNS[1]`: `\b[sS](\d{1,2})[eE](\d{1,3})[eE](\d{1,3})\b`. -/
def tvPat1At (s : JStr) (i : Nat) : Option TvMatch :=
  if !(isBoundary s i) then none
  else
    match s.get? i with
    | some c0 =>
      if c0.toLower ≠ 's' then none
      else
        let tryD1 : Nat → Option TvMatch := fun d1 =>
          if runLength Char.isDigit s (i + 1) < d1 then none
          else
            let p1 := i + 1 + d1
            match s.get? p1 with
            | some ce =>
              if ce.toLower ≠ 'e' then none
              else
                let tryD2 : Nat → Option TvMatch := fun d2 =>
                  if runLength Char.isDigit s (p1 + 1) < d2 then none
                  else
                    let p2 := p1 + 1 + d2
                    match s.get? p2 with
                    | some ce2 =>
                      if ce2.toLower ≠ 'e' then none
                      else
                        let tryD3 : Nat → Option TvMatch := fun d3 =>
                          if runLength Char.isDigit s (p2 + 1) < d3 then none
                          else if isBoundary s (p2 + 1 + d3) then
                            some ⟨i, p2 + 1 + d3 - i, parseIntJ (digitsAt s (i + 1) d1),
                              parseIntJ (digitsAt s (p1 + 1) d2),
                              some (parseIntJ (digitsAt s (p2 + 1) d3))⟩
                          else none
                        (tryD3 3).orElse (fun _ => (tryD3 2).orElse (fun _ => tryD3 1))
                    | none => none
                (tryD2 3).orElse (fun _ => (tryD2 2).orElse (fun _ => tryD2 1))
            | none => none
        (tryD1 2).orElse (fun _ => tryD1 1)
    | none => none

/-- `TV_PATTERNS[2]`: `\b[sS](\d{1,2})[eE](\d{1,3})\-(\d{1,3})\b`. -/
def tvPat2At (s : JStr) (i : Nat) : Option TvMatch :=
  if !(isBoundary s i) then none
  else
    match s.get? i with
    | some c0 =>
      if c0.toLower ≠ 's' then none
      else
        let tryD1 : Nat → Option TvMatch := fun d1 =>
          if runLength Char.isDigit s (i + 1) < d1 then none
          else
            let p1 := i + 1 + d1
            match s.get? p1 with
            | some ce =>
              if ce.toLower ≠ 'e' then none
              else
                let tryD2 : Nat → Option TvMatch := fun d2 =>
                  if runLength Char.isDigit s (p1 + 1) < d2 then none
                  else
                    let p2 := p1 + 1 + d2
                    match s.get? p2 with
                    | some cd =>
                      if cd ≠ '-' then none
                      else
                        let tryD3 : Nat → Option TvMatch := fun d3 =>
                          if runLength Char.isDigit s (p2 + 1) < d3 then none
                          else if isBoundary s (p2 + 1 + d3) then
                            some ⟨i, p2 + 1 + d3 - i, parseIntJ (digitsAt s (i + 1) d1),
                              parseIntJ (digitsAt s (p1 + 1) d2),
                              some (parseIntJ (digitsAt s (p2 + 1) d3))⟩
                          else none
                        (tryD3 3).orElse (fun _ => (tryD3 2).orElse (fun _ => tryD3 1))
                    | none => none
                (tryD2 3).orElse (fun _ => (tryD2 2).orElse (fun _ => tryD2 1))
            | none => none
        (tryD1 2).orElse (fun _ => tryD1 1)
    | none => none

/-- `TV_PATTERNS[3]`: `\b[sS](\d{1,2})\s+[eE][pP]\s*(\d{1,3})\b`. -/
def tvPat3At (s : JStr) (i : Nat) : Option TvMatch :=
  if !(isBoundary s i) then none
  else
    match s.get? i with
    | some c0 =>
      if c0.toLower ≠ 's' then none
      else
        let tryD1 : Nat → Option TvMatch := fun d1 =>
          if runLength Char.isDigit s (i + 1) < d1 then none
          else
            let p1 := i + 1 + d1
            let ws := runLength isSpaceChar s p1
            if ws = 0 then none
            else
              let p2 := p1 + ws
              match s.get? p2, s.get? (p2 + 1) with
              | some ce, some cp =>
                if ce.toLower ≠ 'e' || cp.toLower ≠ 'p' then none
                else
                  let p3 := p2 + 2
                  let ws2 := runLength isSpaceChar s p3
                  let p4 := p3 + ws2
                  let tryD2 : Nat → Option TvMatch := fun d2 =>
                    if runLength Char.isDigit s p4 < d2 then none
                    else if isBoundary s (p4 + d2) then
                      some ⟨i, p4 + d2 - i, parseIntJ (digitsAt s (i + 1) d1),
                        parseIntJ (digitsAt s p4 d2), none⟩
                    else none
                  (tryD2 3).orElse (fun _ => (tryD2 2).orElse (fun _ => tryD2 1))
              | _, _ => none
        (tryD1 2).orElse (fun _ => tryD1 1)
    | none => none

/-- `TV_PATTERNS[4]`: `\b(\d{1,2})[xX](\d{1,3})(?:\-(\d{1,3}))?\b`. -/
def tvPat4At (s : JStr) (i : Nat) : Option TvMatch :=
  if !(isBoundary s i) then none
  else
    let tryD1 : Nat → Option TvMatch := fun d1 =>
      if runLength Char.isDigit s i < d1 then none
      else
        let p1 := i + d1
        match s.get? p1 with
        | some cx =>
          if cx.toLower ≠ 'x' then none
          else
            let p2 := p1 + 1
            let tryD2 : Nat → Option TvMatch := fun d2 =>
              if runLength Char.isDigit s p2 < d2 then none
              else
                let p3 := p2 + d2
                let withOpt : Option TvMatch :=
                  match s.get? p3 with
                  | some '-' =>
                    let p4 := p3 + 1
                    let tryD3 : Nat → Option TvMatch := fun d3 =>
                      if runLength Char.isDigit s p4 < d3 then none
                      else if isBoundary s (p4 + d3) then
                        some ⟨i, p4 + d3 - i, parseIntJ (digitsAt s i d1),
                          parseIntJ (digitsAt s p2 d2), some (parseIntJ (digitsAt s p4 d3))⟩
                      else none
                    (tryD3 3).orElse (fun _ => (tryD3 2).orElse (fun _ => tryD3 1))
                  | _ => none
                withOpt.orElse (fun _ =>
                  if isBoundary s p3 then
                    some ⟨i, p3 - i, parseIntJ (digitsAt s i d1),
                      parseIntJ (digitsAt s p2 d2), none⟩
                  else none)
            (tryD2 3).orElse (fun _ => (tryD2 2).orElse (fun _ => tryD2 1))
        | none => none
    (tryD1 2).orElse (fun _ => tryD1 1)

/-- `TV_PATTERNS[5]`: `\bseason\s*(\d{1,2})\s*episode\s*(\d{1,3})\b` (case-
insensitive). -/
def tvPat5At (s : JStr) (i : Nat) : Option TvMatch :=
  if !(isBoundary s i && litAtCI s i (jstr "season")) then none
  else
    let p0 := i + 6
    let ws := runLength isSpaceChar s p0
    let p1 := p0 + ws
    let tryD1 : Nat → Option TvMatch := fun d1 =>
      if runLength Char.isDigit s p1 < d1 then none
      else
        let p2 := p1 + d1
        let ws2 := runLength isSpaceChar s p2
        let p3 := p2 + ws2
        if !litAtCI s p3 (jstr "episode") then none
        else
          let p4 := p3 + 7
          let ws3 := runLength isSpaceChar s p4
          let p5 := p4 + ws3
          let tryD2 : Nat → Option TvMatch := fun d2 =>
            if runLength Char.isDigit s p5 < d2 then none
            else if isBoundary s (p5 + d2) then
              some ⟨i, p5 + d2 - i, parseIntJ (digitsAt s p1 d1),
                parseIntJ (digitsAt s p5 d2), none⟩
            else none
          (tryD2 3).orElse (fun _ => (tryD2 2).orElse (fun _ => tryD2 1))
    (tryD1 2).orElse (fun _ => tryD1 1)

/-- Leftmost match of a position matcher: try every start position in
order (JS `String.prototype.match` / `search` semantics). -/
def scanFirst {α : Type} (f : JStr → Nat → Option α) (s : JStr) : Option α :=
  (List.range (s.length + 1)).findSome? (fun i => f s i)

/-- The `TV_PATTERNS` loop (`filename-parser.ts`, lines 123-147): the first
pattern of the array that matches anywhere wins, with its leftmost match. -/
def tvFirstMatch (name : JStr) : Option TvMatch :=
  (scanFirst tvPat0At name).orElse (fun _ =>
    (scanFirst tvPat1At name).orElse (fun _ =>
      (scanFirst tvPat2At name).orElse (fun _ =>
        (scanFirst tvPat3At name).orElse (fun _ =>
          (scanFirst tvPat4At name).orElse (fun _ =>
            scanFirst tvPat5At name)))))

/-- Case-insensitive word test `\bword\b` at position `i`. -/
def wordAtCI (s : JStr) (i : Nat) (w : JStr) : Bool :=
  isBoundary s i && litAtCI s i w && isBoundary s (i + w.length)

/-- `SPECIAL_PATTERNS[2]`: `\bepisode\s*0\b` at position `i`.  The `\s*` run
is maximal (its follower `0` is not whitespace). -/
def episode0At (s : JStr) (i : Nat) : Option Unit :=
  if isBoundary s i && litAtCI s i (jstr "episode") then
    let p := i + 7 + runLength isSpaceChar s (i + 7)
    match s.get? p with
    | some '0' => if isBoundary s (p + 1) then some () else none
    | _ => none
  else none

/-- `SPECIAL_PATTERNS[3]`: `\bs00[eE](\d{1,3})\b` at position `i` (the parser
tests it on the lowercased name). -/
def s00eAt (s : JStr) (i : Nat) : Option Unit :=
  if isBoundary s i && litAtCI s i (jstr "s00") then
    match s.get? (i + 3) with
    | some ce =>
      if ce.toLower ≠ 'e' then none
      else
        let p := i + 4
        let tryD : Nat → Option Unit := fun d =>
          if runLength Char.isDigit s p < d then none
          else if isBoundary s (p + d) then some () else none
        (tryD 3).orElse (fun _ => (tryD 2).orElse (fun _ => tryD 1))
    | none => none
  else none

/-- The `SPECIAL_PATTERNS` test (`filename-parser.ts`, lines 108-119),
applied to the lowercased normalized name. -/
def specialTest (lower : JStr) : Bool :=
  (scanFirst (fun s i => if wordAtCI s i (jstr "special") then some () else none) lower).isSome ||
  (scanFirst (fun s i => if wordAtCI s i (jstr "ova") then some () else none) lower).isSome ||
  (scanFirst episode0At lower).isSome ||
  (scanFirst s00eAt lower).isSome

/-- The episode extraction of the specials branch:
`name.match(/[eE][pP]?\s*(\d{1,3})/)` (no word boundaries; greedy digits with
no trailing constraint take `min(run, 3)`). -/
def specialEpisode (name : JStr) : Option Nat :=
  scanFirst
    (fun s i =>
      match s.get? i with
      | some c =>
        if c.toLower ≠ 'e' then none
        else
          let p1 := match s.get? (i + 1) with
            | some cp => if cp.toLower = 'p' then i + 2 else i + 1
            | none => i + 1
          let p2 := p1 + runLength isSpaceChar s p1
          let dr := runLength Char.isDigit s p2
          if dr = 0 then none else some (parseIntJ (digitsAt s p2 (min dr 3)))
      | none => none)
    name

/-- The capture of a season-pack match: digits, a number word, or an absent
group (`match[1]` undefined). -/
inductive PackGroup where
  | num (digits : JStr)
  | word (w : JStr)
  | noGroup
deriving DecidableEq, Repr

/-- `SEASON_PACK_PATTERNS[0]`: `\bseason\s*(\d{1,2})\b` (case-insensitive). -/
def packPat0At (s : JStr) (i : Nat) : Option PackGroup :=
  if isBoundary s i && litAtCI s i (jstr "season") then
    let p := i + 6 + runLength isSpaceChar s (i + 6)
    let tryD : Nat → Option PackGroup := fun d =>
      if runLength Char.isDigit s p < d then none
      else if isBoundary s (p + d) then some (.num (digitsAt s p d)) else none
    (tryD 2).orElse (fun _ => tryD 1)
  else none

/-- `SEASON_PACK_PATTERNS[1]`: `\bcomplete\s*season\s*(\d{1,2})?\b`
(case-insensitive).  The optional digit group is preferred; failing that the
trailing `\b` is tried after the maximal `\s*` run and — backtracking the
run to zero — directly after `season`, which succeeds whenever the run is
non-empty (the position after `season` then sits between a word and a
space). -/
def packPat1At (s : JStr) (i : Nat) : Option PackGroup :=
  if isBoundary s i && litAtCI s i (jstr "complete") then
    let q0 := i + 8 + runLength isSpaceChar s (i + 8)
    if litAtCI s q0 (jstr "season") then
      let q := q0 + 6
      let ws := runLength isSpaceChar s q
      let p := q + ws
      let tryD : Nat → Option PackGroup := fun d =>
        if runLength Char.isDigit s p < d then none
        else if isBoundary s (p + d) then some (.num (digitsAt s p d)) else none
      ((tryD 2).orElse (fun _ => tryD 1)).orElse (fun _ =>
        if isBoundary s p then some .noGroup
        else if ws ≠ 0 then some .noGroup
        else none)
    else none
  else none

/-- `SEASON_PACK_PATTERNS[2]`:
`\bseason\s*(one|two|three|four|five|six|seven|eight|nine|ten)\b`
(case-insensitive); alternatives are tried in source order. -/
def packPat2At (s : JStr) (i : Nat) : Option PackGroup :=
  if isBoundary s i && litAtCI s i (jstr "season") then
    let p := i + 6 + runLength isSpaceChar s (i + 6)
    let words := [jstr "one", jstr "two", jstr "three", jstr "four", jstr "five",
      jstr "six", jstr "seven", jstr "eight", jstr "nine", jstr "ten"]
    (words.find? (fun w => litAtCI s p w && isBoundary s (p + w.length))).map
      (fun w => .word w)
  else none

/-- `SEASON_PACK_PATTERNS[3]`: `\bs(\d{1,2})\b(?!.*[eE]\d)` — lowercase `s`
only (this pattern has no `i` flag), with a negative lookahead refusing any
later `e`/`E` immediately followed by a digit. -/
def hasEDigitFrom (s : JStr) (p : Nat) : Bool :=
  ((s.drop p).zip (s.drop (p + 1))).any (fun ab => ab.1.toLower = 'e' && ab.2.isDigit)

/-- See `hasEDigitFrom`; the match attempt at position `i`. -/
def packPat3At (s : JStr) (i : Nat) : Option PackGroup :=
  if isBoundary s i && s.get? i = some 's' then
    let p := i + 1
    let tryD : Nat → Option PackGroup := fun d =>
      if runLength Char.isDigit s p < d then none
      else if isBoundary s (p + d) && !hasEDigitFrom s (p + d) then
        some (.num (digitsAt s p d))
      else none
    (tryD 2).orElse (fun _ => tryD 1)
  else none

/-- The `SEASON_PACK_PATTERNS` loop (`filename-parser.ts`, lines 151-174):
first pattern of the array with a match anywhere, leftmost occurrence. -/
def packFirstMatch (name : JStr) : Option PackGroup :=
  (scanFirst packPat0At name).orElse (fun _ =>
    (scanFirst packPat1At name).orElse (fun _ =>
      (scanFirst packPat2At name).orElse (fun _ =>
        scanFirst packPat3At name)))

/-- `wordToNum` (`filename-parser.ts`, lines 164-167); `|| null` never fires
since every alternative is a key. -/
def wordToNum (w : JStr) : Option Nat :=
  if w = jstr "one" then some 1
  else if w = jstr "two" then some 2
  else if w = jstr "three" then some 3
  else if w = jstr "four" then some 4
  else if w = jstr "five" then some 5
  else if w = jstr "six" then some 6
  else if w = jstr "seven" then some 7
  else if w = jstr "eight" then some 8
  else if w = jstr "nine" then some 9
  else if w = jstr "ten" then some 10
  else none

/-- A year-pattern match: the matched text (`match[0]`) and the captured
year (`match[1]`). -/
structure YearMatch where
  matchStr : JStr
  value : Nat
deriving DecidableEq, Repr

/-- `YEAR_PATTERNS[0]`: `\((\d{4})\)`. -/
def yearParenAt (s : JStr) (i : Nat) : Option YearMatch :=
  match s.get? i, s.get? (i + 1), s.get? (i + 2), s.get? (i + 3), s.get? (i + 4), s.get? (i + 5) with
  | some '(', some a, some b, some c, some d, some ')' =>
    if a.isDigit && b.isDigit && c.isDigit && d.isDigit then
      some ⟨['(', a, b, c, d, ')'], parseIntJ [a, b, c, d]⟩
    else none
  | _, _, _, _, _, _ => none

/-- `YEAR_PATTERNS[1]`: `\[(\d{4})\]`. -/
def yearBracketAt (s : JStr) (i : Nat) : Option YearMatch :=
  match s.get? i, s.get? (i + 1), s.get? (i + 2), s.get? (i + 3), s.get? (i + 4), s.get? (i + 5) with
  | some '[', some a, some b, some c, some d, some ']' =>
    if a.isDigit && b.isDigit && c.isDigit && d.isDigit then
      some ⟨['[', a, b, c, d, ']'], parseIntJ [a, b, c, d]⟩
    else none
  | _, _, _, _, _, _ => none

/-- `YEAR_PATTERNS[2]`: `\b(19\d{2}|20\d{2})\b`. -/
def yearBareAt (s : JStr) (i : Nat) : Option YearMatch :=
  if !(isBoundary s i) then none
  else
    match s.get? i, s.get? (i + 1), s.get? (i + 2), s.get? (i + 3) with
    | some a, some b, some c, some d =>
      if ((a = '1' && b = '9') || (a = '2' && b = '0')) && c.isDigit && d.isDigit &&
          isBoundary s (i + 4) then
        some ⟨[a, b, c, d], parseIntJ [a, b, c, d]⟩
      else none
    | _, _, _, _ => none

/-- The `YEAR_PATTERNS` loop (`filename-parser.ts`, lines 179-201): per
pattern, only its leftmost match is considered; an out-of-range year does
*not* break the loop, the next pattern is tried. -/
def yearPick (name : JStr) (currentYear : Nat) : Option YearMatch :=
  let inRange : Nat → Bool := fun v => 1900 ≤ v && v ≤ currentYear + 1
  match scanFirst yearParenAt name with
  | some m =>
    if inRange m.value then some m
    else
      (match scanFirst yearBracketAt name with
       | some m2 =>
         if inRange m2.value then some m2
         else (scanFirst yearBareAt name).filter (fun m3 => inRange m3.value)
       | none => (scanFirst yearBareAt name).filter (fun m3 => inRange m3.value))
  | none =>
    match scanFirst yearBracketAt name with
    | some m2 =>
      if inRange m2.value then some m2
      else (scanFirst yearBareAt name).filter (fun m3 => inRange m3.value)
    | none => (scanFirst yearBareAt name).filter (fun m3 => inRange m3.value)

/-- `replace(/\s+/g, " ")`, tracked with a previous-char-was-space flag:
each maximal whitespace run becomes a single space. -/
def collapseWsAux : Bool → JStr → JStr
  | _, [] => []
  | prevSpace, c :: rest =>
    if isSpaceChar c then
      if prevSpace then collapseWsAux true rest
      else ' ' :: collapseWsAux true rest
    else c :: collapseWsAux false rest

/-- `replace(/\s+/g, " ")`: collapse every whitespace run to one space. -/
def collapseWs (s : JStr) : JStr := collapseWsAux false s

/-- `RELEASE_TAGS` (`filename-parser.ts`, lines 15-21), in source order. -/
def releaseTags : List JStr :=
  [jstr "yify", jstr "rarbg", jstr "x264", jstr "x265", jstr "hevc", jstr "bluray",
   jstr "web-dl", jstr "webrip", jstr "hdr", jstr "dv", jstr "aac", jstr "720p",
   jstr "1080p", jstr "2160p", jstr "4k", jstr "uhd", jstr "brrip", jstr "bdrip",
   jstr "dvdrip", jstr "hdtv", jstr "proper", jstr "repack", jstr "extended",
   jstr "unrated", jstr "directors cut", jstr "theatrical", jstr "remux",
   jstr "atmos", jstr "dts", jstr "truehd", jstr "ac3", jstr "5.1", jstr "7.1",
   jstr "10bit", jstr "hdr10", jstr "dolby vision", jstr "amzn", jstr "nf",
   jstr "hulu", jstr "dsnp", jstr "hmax", jstr "atvp", jstr "pcok", jstr "criterion"]

/-- Does the tag (compiled by ``new RegExp(`\\b${tag}\\b`, "gi")``) match the
characters at the head of `rest`?  A `.` inside a tag is the regex wildcard
(as in the `5.1` tag, which also matches `5 1`); other characters are
literal, case-insensitively. -/
def tagCharsMatch : JStr → JStr → Bool
  | [], _ => true
  | _ :: _, [] => false
  | t :: ts, c :: cs => (if t = '.' then true else c.toLower = t) && tagCharsMatch ts cs

/-- `\btag\b` at position `i` of `s`. -/
def tagMatchesAt (s : JStr) (i : Nat) (tag : JStr) : Bool :=
  isBoundary s i && tagCharsMatch tag (s.drop i) && isBoundary s (i + tag.length)

/-- One global-replace pass for a single tag (`replace(regex, "")`): scan
left to right, deleting non-overlapping matches and resuming after each. -/
def replaceTagGo (tag s : JStr) (i : Nat) : JStr :=
  if h : i < s.length then
    if h2 : tagMatchesAt s i tag = true ∧ tag ≠ [] then
      replaceTagGo tag s (i + tag.length)
    else
      s.get ⟨i, h⟩ :: replaceTagGo tag s (i + 1)
  else []
termination_by s.length - i
decreasing_by
  · have : 0 < tag.length := List.length_pos.mpr h2.2
    omega
  · omega

/-- `s.replace(new RegExp(`\\b${tag}\\b`, "gi"), "")`. -/
def replaceTagAll (tag s : JStr) : JStr := replaceTagGo tag s 0

/-- The `for (const tag of RELEASE_TAGS)` removal loop, each tag applied to
the result of the previous replacement. -/
def removeReleaseTags (s : JStr) : JStr :=
  releaseTags.foldl (fun acc tag => replaceTagAll tag acc) s

/-- `GENERIC_FOLDER_NAMES` (`filename-parser.ts`, lines 23-27). -/
def genericFolderNames : List JStr :=
  [jstr "ubuntu", jstr "home", jstr "cloud", jstr "downloads", jstr "media",
   jstr "video", jstr "tv", jstr "movies", jstr "series", jstr "shows",
   jstr "films", jstr "content", jstr "library", jstr "storage", jstr "data",
   jstr "new", jstr "temp", jstr "tmp", jstr "share", jstr "shared",
   jstr "public", jstr "private", jstr "complete", jstr "completed"]

/-- `ParsedMedia` (`filename-parser.ts`, lines 1-11). -/
structure ParsedMedia where
  cleanedName : JStr
  detectedType : MediaType
  detectedName : Option JStr
  year : Option Nat
  season : Option Nat
  episode : Option Nat
  episodeEnd : Option Nat
  isSeasonPack : Bool
  confidence : Nat
deriving DecidableEq, Repr

/-- The tail of `parseFilename` (lines 204-239): the `if (year)` confidence
bonus, the parent-folder and cleaned-name fallbacks for `detectedName`, and
the final clamp of `confidence` to `[0, 100]`. -/
def finishParse (cleanedName : JStr) (detectedType : MediaType)
    (detectedName0 : Option JStr) (year : Option Nat)
    (season episode episodeEnd : Option Nat) (isSeasonPack : Bool)
    (conf0 : Int) (parentFolder : Option JStr) : ParsedMedia :=
  let conf1 := if jsTruthyNat year then conf0 + 20 else conf0
  let step2 : Option JStr × Int :=
    if !jsTruthyStr detectedName0 && jsTruthyStr parentFolder then
      let pf := parentFolder.getD []
      if !(genericFolderNames.contains (jsToLower pf)) then (some pf, conf1 + 10)
      else (detectedName0, conf1 - 30)
    else (detectedName0, conf1)
  let step3 : Option JStr × Int :=
    if !jsTruthyStr step2.1 then (some cleanedName, step2.2 - 10)
    else step2
  ⟨cleanedName, detectedType, step3.1, year, season, episode, episodeEnd, isSeasonPack,
    (min 100 (max 0 step3.2)).toNat⟩

/-- `parseFilename` (`filename-parser.ts`, lines 72-240).  `currentYear`
stands for `new Date().getFullYear()`.  Stages in source order: extension
strip, separator replacement, NFKD (identity on ASCII), trim; release-tag
removal for `cleanedName`; specials, then TV patterns, then season packs,
then movie years — each stage skipped once `detectedType` is `tv_show`;
then the shared fallbacks of `finishParse`.  Steps 1-5 (the normalized
name the classification stages scan) are factored as this definition. -/
def parseNormalizedName (filename : JStr) : JStr :=
  let name0 := match jsLastIndexOfChar '.' filename with
    | some i => filename.take i
    | none => filename.dropLast
  jsTrim (name0.map (fun c => if c = '.' || c = '_' || c = '-' then ' ' else c))

/-- See `parseFilename`; steps 1-5 of the pipeline (extension strip,
separator replacement, NFKD as the identity on ASCII, trim) are
`parseNormalizedName` above. -/
def parseFilename (filename : JStr) (parentFolder : Option JStr)
    (currentYear : Nat) : ParsedMedia :=
  let name := parseNormalizedName filename
  let lowerName := jsToLower name
  let cleanedName := jsTrim (collapseWs (removeReleaseTags name))
  if specialTest lowerName then
    finishParse cleanedName .tv_show none none (some 0) (specialEpisode name) none false 30
      parentFolder
  else
    match tvFirstMatch name with
    | some m =>
      let detectedName :=
        if m.start > 0 then
          some (jsTrim (collapseWs (removeReleaseTags (jsTrim (name.take m.start)))))
        else none
      finishParse cleanedName .tv_show detectedName none (some m.season) (some m.episode)
        m.episodeEnd false 40 parentFolder
    | none =>
      match packFirstMatch name with
      | some g =>
        let season := match g with
          | .num ds => some (parseIntJ ds)
          | .word w => wordToNum (jsToLower w)
          | .noGroup => none
        finishParse cleanedName .tv_show none none season none none true 20 parentFolder
      | none =>
        match yearPick name currentYear with
        | some ym =>
          let detectedName := match jsIndexOfSub ym.matchStr name with
            | some yi =>
              if yi > 0 then
                some (jsTrim (collapseWs (removeReleaseTags (jsTrim (name.take yi)))))
              else none
            | none => none
          finishParse cleanedName .movie detectedName (some ym.value) none none none false 40
            parentFolder
        | none =>
          finishParse cleanedName .unknown none none none none none false 0 parentFolder

/-! ## Per-file scan step (`src/server/lib/scanner.ts`, lines 358-450) and
the rescan endpoint (`src/server/routes.ts`, lines 309-332) -/

/-- A TMDB search result, as consumed by the scanner. -/
structure TmdbMatch where
  tmdbId : Nat
  name : Option JStr
  year : Option Nat
  posterPath : Option JStr
deriving DecidableEq, Repr

/-- The `mediaData` object built for a new or changed file (`scanner.ts`,
lines 370-431). -/
structure MediaData where
  originalFilename : JStr
  originalPath : JStr
  fileSize : Nat
  extension : JStr
  detectedType : MediaType
  detectedName : Option JStr
  cleanedName : JStr
  year : Option Nat
  season : Option Nat
  episode : Option Nat
  episodeEnd : Option Nat
  episodeTitle : Option JStr
  duration : Option Int
  isSeasonPack : Bool
  status : ItemStatus
  confidence : Nat
  tmdbId : Option Nat
  tmdbName : Option JStr
  posterPath : Option JStr
  duplicateOf : Option JStr
deriving DecidableEq, Repr

/-- `tmdbMatch?.field || null` for numbers. -/
def truthyOrNullNat (a : Option Nat) : Option Nat :=
  if jsTruthyNat a then a else none

/-- `tmdbMatch?.field || null` for strings. -/
def truthyOrNullStr (a : Option JStr) : Option JStr :=
  if jsTruthyStr a then a else none

/-- `mediaData` (`scanner.ts`, lines 370-431), given the parse result and
the I/O outcomes.  `detectedType` is `parsed.detectedType` — no folder-tag
information enters anywhere. -/
def mkMediaData (dir entryName : JStr) (statSize : Nat) (parsed : ParsedMedia)
    (tmdbMatch : Option TmdbMatch) (episodeTitle : Option JStr)
    (duration : Option Int) (items : List MediaItem) : MediaData :=
  let ext := jsToLower ((pathExtname entryName).drop 1)
  let confidence := min 100 (parsed.confidence + if tmdbMatch.isSome then 20 else 0)
  let tmdbYear := tmdbMatch.bind (fun m => m.year)
  let year := if jsTruthyNat tmdbYear then tmdbYear else parsed.year
  let tmdbIdOpt := truthyOrNullNat (tmdbMatch.map (fun m => m.tmdbId))
  let tmdbNameOpt := truthyOrNullStr (tmdbMatch.bind (fun m => m.name))
  let posterOpt := truthyOrNullStr (tmdbMatch.bind (fun m => m.posterPath))
  let duplicateOf := findDuplicate
    ⟨tmdbIdOpt, parsed.season, parsed.episode, statSize, duration,
      some parsed.cleanedName, tmdbNameOpt, year, some parsed.detectedType⟩ items
  ⟨entryName, dir, statSize, ext, parsed.detectedType, parsed.detectedName,
    parsed.cleanedName, year, parsed.season, parsed.episode, parsed.episodeEnd,
    episodeTitle, duration, parsed.isSeasonPack, .pending, confidence,
    tmdbIdOpt, tmdbNameOpt, posterOpt, duplicateOf⟩

/-- What the scan step persists for one supported file. -/
inductive ScanAction where
  | skipExisting
  | updateSizeOnly (id : JStr) (newSize : Nat)
  | updateAll (id : JStr) (data : MediaData)
  | insert (data : MediaData)
deriving DecidableEq, Repr

/-- The per-file body of `scanDirectory` (`scanner.ts`, lines 362-449):
incremental skip when a stored item at `(dir, entryName)` has the stat size;
otherwise parse, enrich (the TMDB and episode-title oracles are consulted
only under the source's conditions), detect duplicates and persist —
respecting `manualOverride` by updating only `fileSize`. -/
def processScanFile (currentYear : Nat) (dir entryName : JStr) (statSize : Nat)
    (existingItem : Option MediaItem) (tmdbMatch : Option TmdbMatch)
    (episodeTitleLookup : Option JStr) (duration : Option Int)
    (items : List MediaItem) : ScanAction :=
  match existingItem with
  | some ex =>
    if ex.fileSize = statSize then .skipExisting
    else if ex.manualOverride then .updateSizeOnly ex.id statSize
    else
      let parentFolder := pathBasename dir
      let parsed := parseFilename entryName (some parentFolder) currentYear
      let tmdb :=
        if (parsed.detectedType = .movie && jsTruthyStr parsed.detectedName) ||
            (parsed.detectedType = .tv_show && jsTruthyStr parsed.detectedName) then tmdbMatch
        else none
      let epTitle :=
        if parsed.detectedType = .tv_show && jsTruthyStr parsed.detectedName &&
            tmdb.isSome && parsed.season.isSome && parsed.episode.isSome then
          episodeTitleLookup
        else none
      .updateAll ex.id (mkMediaData dir entryName statSize parsed tmdb epTitle duration items)
  | none =>
    let parentFolder := pathBasename dir
    let parsed := parseFilename entryName (some parentFolder) currentYear
    let tmdb :=
      if (parsed.detectedType = .movie && jsTruthyStr parsed.detectedName) ||
          (parsed.detectedType = .tv_show && jsTruthyStr parsed.detectedName) then tmdbMatch
      else none
    let epTitle :=
      if parsed.detectedType = .tv_show && jsTruthyStr parsed.detectedName &&
          tmdb.isSome && parsed.season.isSome && parsed.episode.isSome then
        episodeTitleLookup
      else none
    .insert (mkMediaData dir entryName statSize parsed tmdb epTitle duration items)

/-- The rescan endpoint `POST /api/media-items/:id/rescan` (`routes.ts`,
lines 309-332): reset the item to pending and clear the TMDB fields and
`duplicateOf`.  (`fileSize` is untouched.) -/
def applyRescan (item : MediaItem) : MediaItem :=
  { item with
    status := .pending
    manualOverride := false
    tmdbId := none
    tmdbName := none
    posterPath := none
    duplicateOf := none }

/-- The `detectedType` a scan action records, when it records one. -/
def scanActionType : ScanAction → Option MediaType
  | .insert d => some d.detectedType
  | .updateAll _ d => some d.detectedType
  | .skipExisting => none
  | .updateSizeOnly _ _ => none

/-! ## Spec-side predicate for claim C5

`isAlreadyOrganized` is specified as: organized iff the planned path equals
the original full path, or the original lies under the corresponding
destination root *and* the immediate containing folder matches the canonical
`Season ##` (TV) / `{Name} ({year})` (movie) pattern.  The following two
definitions follow the spec's words (not the code) so the code can be
compared against them. -/

/-- The spec's canonical-folder test: `Season ##` for TV, `{Name} ({year})`
for movies. -/
def specCanonicalFolderMatch (folder : JStr) (detectedType : Option MediaType)
    (name : JStr) (year : Option Nat) : Bool :=
  if detectedType = some .tv_show then
    (jstr "Season ").isPrefixOf folder && (folder.drop 7).length = 2 &&
      (folder.drop 7).all Char.isDigit
  else if detectedType = some .movie then
    folder = name ++ jstr " (" ++
      (match year with | some y => natToJ y | none => jstr "Unknown") ++ jstr ")"
  else false

/-- Claim C5's right-hand side, as the spec words it. -/
def specOrganized (params : IsAlreadyOrganizedParams) : Bool :=
  (match computeDestinationPath
      ⟨params.detectedType, params.name, params.year, params.season, params.episode,
        params.episodeEnd, params.extension⟩ params.settings with
   | some e => params.originalFullPath = e
   | none => false) ||
  (match getDestinationRoot params.detectedType params.settings with
   | some root =>
     jsStartsWith params.originalFullPath (root ++ jstr "/") &&
       specCanonicalFolderMatch (pathBasename (pathDirname params.originalFullPath))
         params.detectedType params.name params.year
   | none => false)

/-! ## Concrete sample values used by witnesses and counterexamples -/

/-- A pending movie item whose file sits at `/in/Inception.2010.mkv`. -/
def mvItem : MediaItem :=
  { id := jstr "item-1", originalFilename := jstr "Inception.2010.mkv",
    originalPath := jstr "/in", fileSize := 5000, extension := jstr "mkv",
    detectedType := some .movie, detectedName := none,
    cleanedName := some (jstr "Inception"), year := some 2010, season := none,
    episode := none, episodeEnd := none, episodeTitle := none, duration := none,
    isSeasonPack := false, status := .pending, destinationPath := none,
    duplicateOf := none, manualOverride := false, confidence := 60, tmdbId := none,
    tmdbName := none, posterPath := none }

/-- Movies destination `/movies`, no TV destination. -/
def mvSettings : DestinationSettings := ⟨some (jstr "/movies"), none⟩

/-- `plan(mvItem, mvSettings)`. -/
def mvPlanned : JStr := jstr "/movies/Inception (2010)/Inception (2010).mkv"

/-- The source path of `mvItem`. -/
def mvSource : JStr := jstr "/in/Inception.2010.mkv"

/-- Filesystem with only the source file; everything on one device. -/
def fsFree : FS := ⟨[(mvSource, 5000)], fun _ => 0⟩

/-- Filesystem with a *different-size* file already at the planned path. -/
def fsDiffSize : FS := ⟨[(mvSource, 5000), (mvPlanned, 999)], fun _ => 0⟩

/-- Filesystem with a *same-size* file already at the planned path. -/
def fsSameSize : FS := ⟨[(mvSource, 5000), (mvPlanned, 5000)], fun _ => 0⟩

/-- Source on device 0, destination tree on device 1 (forces `EXDEV`). -/
def fsCross : FS := ⟨[(mvSource, 5000)], fun p => if jsStartsWith p (jstr "/movies") then 1 else 0⟩

/-- A duplicate-detector candidate carrying only a TMDB id, a year and a
duration (all name renderings absent). -/
def dupParams : DuplicateCheckParams :=
  ⟨some 42, none, none, 5000, some 100, none, none, some 2010, some .movie⟩

/-- A stored primary matching `dupParams` through TMDB identity and
duration similarity. -/
def dupPrimary : MediaItem :=
  { mvItem with
    id := jstr "prim-1"
    cleanedName := none
    tmdbId := some 42
    duration := some 100 }

/-- Candidate for claim C9's witness: duration 100, name `abcde`. -/
def c9Params : DuplicateCheckParams :=
  ⟨some 42, none, none, 5000, some 100, some (jstr "abcde"), none, some 2010, some .movie⟩

/-- Stored item for claim C9's witness: duration 200, name `vwxyz`. -/
def c9Item : MediaItem :=
  { mvItem with
    id := jstr "prim-9"
    cleanedName := some (jstr "vwxyz")
    tmdbId := some 42
    duration := some 200 }

/-- A movie file in an irregular folder under the movies root. -/
def c5Params : IsAlreadyOrganizedParams :=
  { originalFullPath := jstr "/movies/stuff/Film.mkv", detectedType := some .movie,
    name := jstr "Film", year := some 2020, season := none, episode := none,
    episodeEnd := none, extension := jstr "mkv", settings := ⟨some (jstr "/movies"), none⟩ }

/-! ## Helper lemmas -/

theorem find?_congrJ {α : Type} (p q : α → Bool) (l : List α) (h : ∀ a, p a = q a) :
    l.find? p = l.find? q := by
  induction l with
  | nil => rfl
  | cons a t ih => rw [List.find?_cons, List.find?_cons, h a, ih]

theorem find?_filter_ne (l : List (JStr × Nat)) (p q : JStr) (h : q ≠ p) :
    (l.filter (fun e => e.1 ≠ p)).find? (fun e => e.1 = q) = l.find? (fun e => e.1 = q) := by
  rw [List.find?_filter]
  refine find?_congrJ _ _ _ (fun a => ?_)
  by_cases haq : a.1 = q
  · by_cases hap : a.1 = p
    · exact absurd (haq ▸ hap) h
    · simp [haq, hap, h]
  · simp [haq]

theorem FS.lookup_set (fsys : FS) (p : JStr) (sz : Nat) (q : JStr) :
    (fsys.set p sz).lookup q = if q = p then some sz else fsys.lookup q := by
  by_cases h : q = p
  · subst h
    simp [FS.set, FS.lookup, List.find?_cons]
  · simp only [FS.set, FS.lookup, List.find?_cons]
    simp only [if_neg h]
    rw [show (decide (p = q)) = false by simpa using fun e => h e.symm]
    rw [find?_filter_ne _ _ _ h]

theorem FS.lookup_erase (fsys : FS) (p : JStr) (q : JStr) :
    (fsys.erase p).lookup q = if q = p then none else fsys.lookup q := by
  by_cases h : q = p
  · subst h
    simp only [FS.erase, FS.lookup, if_pos rfl]
    rw [show (fsys.files.filter (fun e => e.1 ≠ q)).find? (fun e => e.1 = q) = none from ?_]
    · rfl
    · rw [List.find?_eq_none]
      intro x hx
      simp only [List.mem_filter] at hx
      simpa using hx.2
  · simp only [FS.erase, FS.lookup, if_neg h]
    rw [find?_filter_ne _ _ _ h]

theorem FS.rename_ok_iff (fsys : FS) (src dst : JStr) (fs' : FS) :
    fsys.rename src dst = .ok fs' ↔
      ∃ sz, fsys.lookup src = some sz ∧ fsys.dev src = fsys.dev dst ∧
        fs' = (fsys.erase src).set dst sz := by
  constructor
  · intro h
    unfold FS.rename at h
    rcases hl : fsys.lookup src with _ | sz
    · simp [hl] at h
    · rw [hl] at h
      by_cases hd : fsys.dev src ≠ fsys.dev dst
      · simp [hd] at h
      · push_neg at hd
        simp [hd] at h
        exact ⟨sz, rfl, hd, h.symm⟩
  · rintro ⟨sz, hl, hd, rfl⟩
    unfold FS.rename
    simp [hl, hd]

theorem organizeDest_of_plan (item : MediaItem) (settings : DestinationSettings) (d : JStr)
    (h : planOfItem item settings = some d) : organizeDest item settings = .ok d := by
  unfold planOfItem computeDestinationPath itemPlanParams at h
  unfold organizeDest
  split_ifs at h ⊢ <;> simp_all

theorem organizeItem_success_free
    (item : MediaItem) (settings : DestinationSettings) (fsys : FS) (c : Nat) (dest : JStr)
    (hdest : organizeDest item settings = .ok dest)
    (hfree : fsys.lookup dest = none)
    (hsucc : (organizeItem item settings fsys c).success = true) :
    (organizeItem item settings fsys c).skipped = false ∧
    (organizeItem item settings fsys c).destinationPath = some dest ∧
    (organizeItem item settings fsys c).item = item ∧
    ((organizeItem item settings fsys c).fs.lookup dest).isSome = true ∧
    (organizeItem item settings fsys c).fs.lookup (pathJoin item.originalPath item.originalFilename) = none := by
  unfold organizeItem at hsucc ⊢
  rw [hdest] at hsucc ⊢
  by_cases hsl : (fsys.lookup (pathJoin item.originalPath item.originalFilename)).isNone
  · simp [hsl] at hsucc
  · simp only [hsl, Bool.false_eq_true, if_false, pathNormalize] at hsucc ⊢
    by_cases heq : pathJoin item.originalPath item.originalFilename = dest
    · simp [heq] at hsucc
    · simp only [if_neg heq] at hsucc ⊢
      by_cases hg : destInsideSourceGuard (pathJoin item.originalPath item.originalFilename) dest = true
      · simp [hg] at hsucc
      · simp only [Bool.not_eq_true] at hg
        simp only [hg, Bool.false_eq_true, if_false, handleCollision, hfree] at hsucc ⊢
        cases hren : fsys.rename (pathJoin item.originalPath item.originalFilename) (dest ++ jstr ".tmp") with
        | ok fs1 =>
          rw [hren] at hsucc
          dsimp only at hsucc ⊢
          cases hren2 : fs1.rename (dest ++ jstr ".tmp") dest with
          | ok fs2 =>
            rw [hren2] at hsucc
            dsimp only at hsucc ⊢
            obtain ⟨sz, hl1, hdev1, hfs1⟩ := (FS.rename_ok_iff _ _ _ _).mp hren
            obtain ⟨sz2, hl2, hdev2, hfs2⟩ := (FS.rename_ok_iff _ _ _ _).mp hren2
            subst hfs2
            refine ⟨rfl, rfl, rfl, ?_, ?_⟩
            · simp [FS.lookup_set]
            · subst hfs1
              simp only [FS.lookup_set, FS.lookup_erase, if_neg heq]
              by_cases hst : pathJoin item.originalPath item.originalFilename = dest ++ jstr ".tmp" <;>
                simp [hst]
          | error e =>
            rw [hren2] at hsucc
            simp at hsucc
        | error e =>
          cases e with
          | exdev =>
            rw [hren] at hsucc
            dsimp only at hsucc ⊢
            by_cases hver : ((fsys.set (dest ++ jstr ".tmp") c).lookup
                (pathJoin item.originalPath item.originalFilename)).getD 0 ≠
                ((fsys.set (dest ++ jstr ".tmp") c).lookup (dest ++ jstr ".tmp")).getD 0
            · simp [hver] at hsucc
            · rw [if_neg hver] at hsucc ⊢
              cases hren2 : ((fsys.set (dest ++ jstr ".tmp") c).erase
                  (pathJoin item.originalPath item.originalFilename)).rename (dest ++ jstr ".tmp") dest with
              | ok fs3 =>
                rw [hren2] at hsucc
                dsimp only at hsucc ⊢
                obtain ⟨sz2, hl2, hdev2, hfs3⟩ := (FS.rename_ok_iff _ _ _ _).mp hren2
                subst hfs3
                refine ⟨rfl, rfl, rfl, ?_, ?_⟩
                · simp [FS.lookup_set]
                · simp only [FS.lookup_set, FS.lookup_erase, if_neg heq]
                  by_cases hst : pathJoin item.originalPath item.originalFilename = dest ++ jstr ".tmp" <;>
                    simp [hst]
              | error e2 =>
                rw [hren2] at hsucc
                simp at hsucc
          | noEnt =>
            rcases hl0 : fsys.lookup (pathJoin item.originalPath item.originalFilename) with _ | sz0
            · rw [hl0] at hsl
              simp at hsl
            · unfold FS.rename at hren
              rw [hl0] at hren
              by_cases hd : fsys.dev (pathJoin item.originalPath item.originalFilename) ≠
                  fsys.dev (dest ++ jstr ".tmp") <;> simp [hd] at hren

/-! ## Claim theorems -/

/-- C10 counterexample: the round-trip fails for `mixed` — the decoder of
`src/shared/library-utils.ts` has no `MIXED` branch, so the decoded path
keeps the `MIXED:` prefix. -/
theorem claim10_counterexample :
    decodeTaggedFolder (encodeTaggedFolder .mixed (jstr "/data")) ≠
      (⟨.mixed, jstr "/data"⟩ : LibraryFolder) := by decide

/-- C10 (amended): for every path, `decode ∘ encode` round-trips exactly for
the `movies` and `tv` library types; for `mixed` the decoder returns type
`mixed` but the *whole tagged string* (`MIXED:` + path) as the path. -/
theorem claim10_roundtrip_amended (p : JStr) :
    decodeTaggedFolder (encodeTaggedFolder .movies p) = ⟨.movies, p⟩ ∧
    decodeTaggedFolder (encodeTaggedFolder .tv p) = ⟨.tv, p⟩ ∧
    decodeTaggedFolder (encodeTaggedFolder .mixed p) = ⟨.mixed, jstr "MIXED:" ++ p⟩ :=
  ⟨rfl, rfl, rfl⟩

/-- C1 counterexample: with a *different-size* file already at the planned
destination (no same-size collision), the move succeeds but lands at the
auto-renamed `(copy 2)` path, so the item's `destinationPath` is *not* the
planned path. -/
theorem claim1_counterexample :
    planOfItem mvItem mvSettings = some mvPlanned ∧
    fsDiffSize.lookup mvPlanned = some 999 ∧
    mvItem.fileSize = 5000 ∧
    (organizeItem mvItem mvSettings fsDiffSize 0).success = true ∧
    (organizeItem mvItem mvSettings fsDiffSize 0).skipped = false ∧
    (processItem mvItem mvSettings fsDiffSize 0).item.status = .organized ∧
    (processItem mvItem mvSettings fsDiffSize 0).item.destinationPath =
      some (jstr "/movies/Inception (2010)/Inception (2010) (copy 2).mkv") ∧
    (processItem mvItem mvSettings fsDiffSize 0).item.destinationPath ≠ some mvPlanned := by
  decide

/-- C1 (amended): for a pending, non-season-pack item whose planned
destination is *unoccupied*, a successful move leaves a file at the planned
path, removes the source file, sets the item's status to `organized` and its
`destinationPath` to the planned path. -/
theorem claim1_move_postconditions
    (item : MediaItem) (settings : DestinationSettings) (fsys : FS) (c : Nat) (dest : JStr)
    (hp : item.status = .pending) (hsp : item.isSeasonPack = false)
    (hplan : planOfItem item settings = some dest)
    (hfree : fsys.lookup dest = none)
    (hsucc : (organizeItem item settings fsys c).success = true) :
    (((processItem item settings fsys c).fs.lookup dest).isSome = true) ∧
    ((processItem item settings fsys c).fs.lookup
      (pathJoin item.originalPath item.originalFilename) = none) ∧
    ((processItem item settings fsys c).item.status = .organized) ∧
    ((processItem item settings fsys c).item.destinationPath = some dest) := by
  obtain ⟨hskip, hdp, hit, hfs1, hfs2⟩ :=
    organizeItem_success_free item settings fsys c dest
      (organizeDest_of_plan _ _ _ hplan) hfree hsucc
  unfold processItem
  simp [hp, hsp, hsucc, hskip, hdp, hit, hfs1, hfs2]

/-- Witness for C1's amended theorem at a concrete movie item and a
single-device filesystem holding only the source file. -/
theorem claim1_move_postconditions_witness :
    (((processItem mvItem mvSettings fsFree 0).fs.lookup mvPlanned).isSome = true) ∧
    ((processItem mvItem mvSettings fsFree 0).fs.lookup
      (pathJoin mvItem.originalPath mvItem.originalFilename) = none) ∧
    ((processItem mvItem mvSettings fsFree 0).item.status = .organized) ∧
    ((processItem mvItem mvSettings fsFree 0).item.destinationPath = some mvPlanned) :=
  claim1_move_postconditions mvItem mvSettings fsFree 0 mvPlanned rfl rfl
    (by decide) (by decide) (by decide)

/-- C2: when the initial rename to the temporary path fails with `EXDEV`,
the executor copies the source to the temp path and compares sizes.  On
mismatch, the temp file is removed and the item transitions to `error` with
the source intact (and nothing at the destination); on match, the source is
unlinked after the verified copy and the temp renamed into place, completing
the move with the source gone. -/
theorem claim2_exdev_fallback
    (item : MediaItem) (settings : DestinationSettings) (fsys : FS) (c : Nat)
    (dest : JStr) (szSrc : Nat)
    (hp : item.status = .pending) (hsp : item.isSeasonPack = false)
    (hplan : planOfItem item settings = some dest)
    (hfree : fsys.lookup dest = none)
    (hsrc : fsys.lookup (pathJoin item.originalPath item.originalFilename) = some szSrc)
    (hneq : ¬ pathJoin item.originalPath item.originalFilename = dest)
    (hguard : destInsideSourceGuard (pathJoin item.originalPath item.originalFilename) dest = false)
    (htmp : ¬ pathJoin item.originalPath item.originalFilename = dest ++ jstr ".tmp")
    (hx : fsys.dev (pathJoin item.originalPath item.originalFilename) ≠ fsys.dev (dest ++ jstr ".tmp"))
    (hdev2 : fsys.dev (dest ++ jstr ".tmp") = fsys.dev dest) :
    (c ≠ szSrc →
      ((processItem item settings fsys c).item.status = .error ∧
       (processItem item settings fsys c).fs.lookup
         (pathJoin item.originalPath item.originalFilename) = some szSrc ∧
       (processItem item settings fsys c).fs.lookup (dest ++ jstr ".tmp") = none ∧
       (processItem item settings fsys c).fs.lookup dest = none)) ∧
    (c = szSrc →
      ((organizeItem item settings fsys c).success = true ∧
       (processItem item settings fsys c).item.status = .organized ∧
       (processItem item settings fsys c).item.destinationPath = some dest ∧
       (processItem item settings fsys c).fs.lookup dest = some szSrc ∧
       (processItem item settings fsys c).fs.lookup
         (pathJoin item.originalPath item.originalFilename) = none ∧
       (processItem item settings fsys c).fs.lookup (dest ++ jstr ".tmp") = none)) := by
  have hdt : ¬ dest = dest ++ jstr ".tmp" := by
    intro hh
    have := congrArg List.length hh
    simp [jstr] at this
  have hsrcF : (fsys.lookup (pathJoin item.originalPath item.originalFilename)).isNone = false := by
    rw [hsrc]; rfl
  have hw : (decide (item.status ≠ ItemStatus.pending) || item.isSeasonPack) = false := by
    rw [hp, hsp]; rfl
  have hren : fsys.rename (pathJoin item.originalPath item.originalFilename)
      (dest ++ jstr ".tmp") = .error .exdev := by
    unfold FS.rename
    rw [hsrc]
    simp [hx]
  have hlookS : ((fsys.set (dest ++ jstr ".tmp") c).lookup
      (pathJoin item.originalPath item.originalFilename)) = some szSrc := by
    rw [FS.lookup_set, if_neg htmp, hsrc]
  have hlookT : ((fsys.set (dest ++ jstr ".tmp") c).lookup (dest ++ jstr ".tmp")) = some c := by
    rw [FS.lookup_set, if_pos rfl]
  constructor
  · intro hc
    have hcond : szSrc ≠ c := fun e => hc e.symm
    unfold processItem organizeItem
    rw [organizeDest_of_plan item settings dest hplan]
    simp only [hw, hsrcF, pathNormalize, if_neg hneq, hguard, handleCollision, hfree,
      Bool.false_eq_true, if_false]
    rw [hren]
    dsimp only
    rw [hlookS, hlookT]
    simp only [Option.getD_some]
    rw [if_pos hcond]
    dsimp only
    rw [if_neg (show ¬ (false = true) by simp)]
    refine ⟨rfl, ?_, ?_, ?_⟩
    · rw [FS.lookup_erase, if_neg htmp, hlookS]
    · rw [FS.lookup_erase, if_pos rfl]
    · rw [FS.lookup_erase, if_neg hdt, FS.lookup_set, if_neg hdt, hfree]
  · intro hc
    subst hc
    have hren2 : ((fsys.set (dest ++ jstr ".tmp") c).erase
        (pathJoin item.originalPath item.originalFilename)).rename (dest ++ jstr ".tmp") dest =
        .ok ((((fsys.set (dest ++ jstr ".tmp") c).erase
          (pathJoin item.originalPath item.originalFilename)).erase (dest ++ jstr ".tmp")).set dest c) := by
      refine (FS.rename_ok_iff _ _ _ _).mpr ⟨c, ?_, hdev2, rfl⟩
      rw [FS.lookup_erase, if_neg (fun e => htmp e.symm), hlookT]
    unfold processItem organizeItem
    rw [organizeDest_of_plan item settings dest hplan]
    simp only [hw, hsrcF, pathNormalize, if_neg hneq, hguard, handleCollision, hfree,
      Bool.false_eq_true, if_false]
    rw [hren]
    dsimp only
    rw [hlookS, hlookT]
    simp only [Option.getD_some]
    rw [if_neg (show ¬ c ≠ c from fun h => h rfl)]
    rw [hren2]
    dsimp only
    rw [if_pos (show true = true from rfl), if_neg (show ¬ (false = true) by simp)]
    refine ⟨rfl, rfl, rfl, ?_, ?_, ?_⟩
    · rw [FS.lookup_set, if_pos rfl]
    · rw [FS.lookup_set, if_neg hneq, FS.lookup_erase]
      by_cases hst : pathJoin item.originalPath item.originalFilename = dest ++ jstr ".tmp"
      · exact absurd hst htmp
      · rw [if_neg hst, FS.lookup_erase, if_pos rfl]
    · rw [FS.lookup_set, if_neg (fun e => hdt e.symm), FS.lookup_erase, if_pos rfl]

/-- Witness for C2 at a concrete cross-device filesystem with a faithful
copy (copied size 5000 = source size): the EXDEV fallback completes the
move. -/
theorem claim2_exdev_fallback_witness :
    (organizeItem mvItem mvSettings fsCross 5000).success = true ∧
    (processItem mvItem mvSettings fsCross 5000).fs.lookup mvPlanned = some 5000 ∧
    (processItem mvItem mvSettings fsCross 5000).fs.lookup
      (pathJoin mvItem.originalPath mvItem.originalFilename) = none :=
  have h := claim2_exdev_fallback mvItem mvSettings fsCross 5000 mvPlanned 5000 rfl rfl
    (by decide) (by decide) (by decide) (by decide) (by decide) (by decide) (by decide) (by decide)
  ⟨(h.2 rfl).1, (h.2 rfl).2.2.2.1, (h.2 rfl).2.2.2.2.1⟩

/-- C3: an item whose planned destination already holds a file of exactly
its byte size is marked `skipped` with `duplicateOf` set to the existing
destination path; a `skip` log row is appended, the item counts as a
success, and the filesystem — source file and destination file included —
is not mutated at all. -/
theorem claim3_same_size_collision_skip
    (item : MediaItem) (settings : DestinationSettings) (fsys : FS) (c : Nat) (dest : JStr)
    (hp : item.status = .pending) (hsp : item.isSeasonPack = false)
    (hplan : planOfItem item settings = some dest)
    (hsrc : (fsys.lookup (pathJoin item.originalPath item.originalFilename)).isNone = false)
    (hneq : ¬ pathJoin item.originalPath item.originalFilename = dest)
    (hguard : destInsideSourceGuard (pathJoin item.originalPath item.originalFilename) dest = false)
    (hcoll : fsys.lookup dest = some item.fileSize) :
    ((processItem item settings fsys c).item.status = .skipped) ∧
    ((processItem item settings fsys c).item.duplicateOf = some dest) ∧
    ((processItem item settings fsys c).fs = fsys) ∧
    ((processItem item settings fsys c).logs =
      [⟨item.id, .skip, pathJoin item.originalPath item.originalFilename, some dest,
        some (jstr "Duplicate file already exists at destination")⟩]) ∧
    ((processItem item settings fsys c).successCount = 1) ∧
    ((processItem item settings fsys c).failedCount = 0) := by
  unfold processItem organizeItem
  rw [organizeDest_of_plan item settings dest hplan]
  simp [hp, hsp, hsrc, pathNormalize, hneq, hguard, handleCollision, hcoll]

/-- Witness for C3 at a concrete filesystem with a same-size file already at
the planned destination. -/
theorem claim3_same_size_collision_skip_witness :
    ((processItem mvItem mvSettings fsSameSize 0).item.status = .skipped) ∧
    ((processItem mvItem mvSettings fsSameSize 0).item.duplicateOf = some mvPlanned) ∧
    ((processItem mvItem mvSettings fsSameSize 0).fs = fsSameSize) ∧
    ((processItem mvItem mvSettings fsSameSize 0).logs =
      [⟨mvItem.id, .skip, pathJoin mvItem.originalPath mvItem.originalFilename, some mvPlanned,
        some (jstr "Duplicate file already exists at destination")⟩]) ∧
    ((processItem mvItem mvSettings fsSameSize 0).successCount = 1) ∧
    ((processItem mvItem mvSettings fsSameSize 0).failedCount = 0) :=
  claim3_same_size_collision_skip mvItem mvSettings fsSameSize 0 mvPlanned rfl rfl
    (by decide) (by decide) (by decide) (by decide) (by decide)

/-- C4 counterexample: after a same-size collision, the collision handler
stores the *destination path* in `duplicateOf`.  That value is not the id of
any MediaItem in the store (the store's only item keeps id `item-1`), so the
"duplicateOf references an item whose own duplicateOf is null" invariant
fails in a reachable state. -/
theorem claim4_counterexample :
    (processItem mvItem mvSettings fsSameSize 0).item.duplicateOf = some mvPlanned ∧
    (processItem mvItem mvSettings fsSameSize 0).item.id = jstr "item-1" ∧
    (∀ j ∈ [(processItem mvItem mvSettings fsSameSize 0).item], j.id ≠ mvPlanned) := by
  decide

/-- C4 (amended): the *duplicate detector* does respect one-level grouping —
whenever `findDuplicate` returns an id, that id belongs to a stored item
whose `duplicateOf` is null (or the falsy empty string) at detection time.
The collision handler, by contrast, writes a filesystem path into
`duplicateOf` (see the counterexample), so the invariant does not extend to
organize. -/
theorem claim4_detector_primary_only
    (p : DuplicateCheckParams) (items : List MediaItem) (i : JStr)
    (h : findDuplicate p items = some i) :
    ∃ it ∈ items, it.id = i ∧ jsTruthyStr it.duplicateOf = false := by
  unfold findDuplicate at h
  rcases hf : items.find? (fun item => isDuplicatePair p item) with _ | it
  · rw [hf] at h
    simp at h
  · rw [hf] at h
    simp at h
    have hp := List.find?_some hf
    refine ⟨it, List.mem_of_find?_eq_some hf, h, ?_⟩
    by_contra hdup
    have hdup' : jsTruthyStr it.duplicateOf = true := by
      cases hb : jsTruthyStr it.duplicateOf
      · exact absurd hb hdup
      · rfl
    simp [isDuplicatePair, hdup'] at hp

/-- Witness for C4's amended theorem: a candidate matching a stored primary
through TMDB identity and duration similarity. -/
theorem claim4_detector_primary_only_witness :
    ∃ it ∈ [dupPrimary], it.id = jstr "prim-1" ∧ jsTruthyStr it.duplicateOf = false :=
  claim4_detector_primary_only dupParams [dupPrimary] (jstr "prim-1") (by decide)

/-- C5 counterexample: a movie file in an irregular folder (`stuff`) under
the movies root.  The code reports it organized (second branch: merely being
inside the destination root suffices), while the claim's right-hand side —
planned path equality, or under-root *and* canonical-folder match — is
false. -/
theorem claim5_counterexample :
    (isAlreadyOrganized c5Params).organized = true ∧
    specOrganized c5Params = false ∧
    (isAlreadyOrganized c5Params).reason = jstr "File is inside destination root folder" := by
  decide

/-- Both arms of the Jellyfin-structure test return `organized = true`. -/
theorem ite_organized (c : Prop) [Decidable c] (a b : JStr) (p q : Option JStr) :
    (if c then ({ organized := true, reason := a, resolvedDestPath := p } : IsAlreadyOrganizedResult)
     else { organized := true, reason := b, resolvedDestPath := q }).organized = true := by
  split <;> rfl

/-- C5 (amended): `isAlreadyOrganized` reports an item organized iff a
destination root is configured for its type and (the planned path equals the
original full path, or the original path lies under that root — with *no*
requirement on the containing folder's shape). -/
theorem claim5_organized_iff_under_root (params : IsAlreadyOrganizedParams) :
    (isAlreadyOrganized params).organized = true ↔
      (jsTruthyStr (getDestinationRoot params.detectedType params.settings) = true ∧
       ((∃ e, computeDestinationPath
           ⟨params.detectedType, params.name, params.year, params.season, params.episode,
             params.episodeEnd, params.extension⟩ params.settings = some e ∧
           params.originalFullPath = e) ∨
        jsStartsWith params.originalFullPath
          ((getDestinationRoot params.detectedType params.settings).getD [] ++ jstr "/") = true ∨
        params.originalFullPath = (getDestinationRoot params.detectedType params.settings).getD [])) := by
  unfold isAlreadyOrganized
  by_cases hroot : jsTruthyStr (getDestinationRoot params.detectedType params.settings) = true
  · simp only [hroot, Bool.not_true, Bool.false_eq_true, if_false, pathNormalize]
    rcases hcd : computeDestinationPath
        ⟨params.detectedType, params.name, params.year, params.season, params.episode,
          params.episodeEnd, params.extension⟩ params.settings with _ | e
    · simp only []
      by_cases hsw : jsStartsWith params.originalFullPath
          ((getDestinationRoot params.detectedType params.settings).getD [] ++ jstr "/") = true
      · simp [hsw, hroot, ite_organized]
      · by_cases heqr : params.originalFullPath =
            (getDestinationRoot params.detectedType params.settings).getD []
        · simp [hsw, heqr, hroot, ite_organized]
        · simp [hsw, heqr, hroot, hcd]
    · by_cases he : params.originalFullPath = e
      · simp [he, hroot, hcd]
      · simp only [decide_eq_true_eq]
        by_cases hsw : jsStartsWith params.originalFullPath
            ((getDestinationRoot params.detectedType params.settings).getD [] ++ jstr "/") = true
        · simp [he, hsw, hroot, hcd, ite_organized]
        · by_cases heqr : params.originalFullPath =
              (getDestinationRoot params.detectedType params.settings).getD []
          · simp [he, hsw, heqr, hroot, hcd, ite_organized]
            rw [if_neg (heqr ▸ he)]
            exact ite_organized _ _ _ _ _
          · simp [he, hsw, heqr, hroot, hcd]
  · have hroot' : jsTruthyStr (getDestinationRoot params.detectedType params.settings) = false := by
      cases hb : jsTruthyStr (getDestinationRoot params.detectedType params.settings)
      · rfl
      · exact absurd hb hroot
    simp [hroot']

/-- C6: after the rescan endpoint resets an item (status pending, TMDB
fields and `duplicateOf` cleared), the next scan over an *unchanged*
filesystem does **not** re-parse or reclassify it: the incremental-skip test
compares only `fileSize`, which rescan leaves untouched, so the scan step
returns `skipExisting` and the item stays as rescan left it — contradicting
the spec's "ensuring the next scan reclassifies it". -/
theorem claim6_rescan_skipped_by_next_scan (item : MediaItem) (cy : Nat) (dir : JStr)
    (tm : Option TmdbMatch) (ep : Option JStr) (du : Option Int) (items : List MediaItem) :
    (applyRescan item).status = .pending ∧
    (applyRescan item).tmdbId = none ∧
    (applyRescan item).tmdbName = none ∧
    (applyRescan item).duplicateOf = none ∧
    processScanFile cy dir item.originalFilename item.fileSize (some (applyRescan item))
      tm ep du items = .skipExisting := by
  refine ⟨rfl, rfl, rfl, rfl, ?_⟩
  unfold processScanFile applyRescan
  simp

/-- C7 counterexample: a file under a `MOVIES:`-tagged root whose filename
carries an episode pattern.  `decodeTaggedFolder` does classify the root as
a movies library, yet the scan records the *parser's* type `tv_show`, not
`movie` — the scan never consults folder tags. -/
theorem claim7_counterexample :
    decodeTaggedFolder (jstr "MOVIES:/downloads") = ⟨.movies, jstr "/downloads"⟩ ∧
    scanActionType (processScanFile 2026 (jstr "/downloads") (jstr "Show.S01E01.mkv") 1000
      none none none none []) = some .tv_show ∧
    (MediaType.tv_show ≠ MediaType.movie) := by
  decide

/-- C7 (amended): the `detectedType` a scan records for a new file is always
exactly the filename parser's output — no tagged-folder information enters
the per-file scan step (its inputs do not even include the root's tag). -/
theorem claim7_scan_type_is_parser_output (cy : Nat) (dir entryName : JStr) (sz : Nat)
    (tm : Option TmdbMatch) (ep : Option JStr) (du : Option Int) (items : List MediaItem) :
    scanActionType (processScanFile cy dir entryName sz none tm ep du items) =
      some (parseFilename entryName (some (pathBasename dir)) cy).detectedType := rfl

/-- C8: any filename whose normalized form contains an `S##E##`-family
episode pattern (one of the parser's `TV_PATTERNS`) parses as `tv_show` —
the year stage is guarded by `detectedType !== "tv_show"` and can never run,
so a year tag anywhere in the filename (in particular one appended after the
episode pattern) can never flip the classification to `movie`. -/
theorem claim8_episode_pattern_wins (filename : JStr) (parentFolder : Option JStr) (cy : Nat)
    (h : (tvFirstMatch (parseNormalizedName filename)).isSome = true) :
    (parseFilename filename parentFolder cy).detectedType = .tv_show := by
  unfold parseFilename
  by_cases hs : specialTest (jsToLower (parseNormalizedName filename)) = true
  · simp [hs, finishParse]
  · rcases hm : tvFirstMatch (parseNormalizedName filename) with _ | m
    · rw [hm] at h
      simp at h
    · simp [hs, hm, finishParse]

/-- Witness for C8: `Show.S01E02.2010.mkv` carries both an episode pattern
and an in-range year, and parses as `tv_show`. -/
theorem claim8_episode_pattern_wins_witness :
    (tvFirstMatch (parseNormalizedName (jstr "Show.S01E02.2010.mkv"))).isSome = true ∧
    (parseFilename (jstr "Show.S01E02.2010.mkv") none 2026).detectedType = .tv_show :=
  ⟨by decide, claim8_episode_pattern_wins (jstr "Show.S01E02.2010.mkv") none 2026 (by decide)⟩

/-- C9: for pairs with both durations known, the pairwise duplicate rule is
invariant under arbitrary changes of either file size (file-size similarity
is never consulted), and if the durations differ by more than 2 seconds
while the name edit-distance ratio — on the fallback-chain renderings and on
the TMDB names, the two renderings the detector consults — is at most 0.90,
the pair is not flagged even when identity matches. -/
theorem claim9_duration_rules
    (p : DuplicateCheckParams) (item : MediaItem) (dc di : Int)
    (hc : p.duration = some dc) (hi : item.duration = some di) :
    (∀ s1 s2 : Nat, isDuplicatePair { p with fileSize := s1 } { item with fileSize := s2 } =
      isDuplicatePair p item) ∧
    ((di - dc).natAbs > 2 →
      stringSimilarity (jsOrStr item.cleanedName (jsOrStr item.detectedName (jsOrStr item.tmdbName [])))
        (jsOrStr p.cleanedName (jsOrStr p.tmdbName [])) ≤ 9 / 10 →
      (∀ a b, item.tmdbName = some a → p.tmdbName = some b → stringSimilarity a b ≤ 9 / 10) →
      isDuplicatePair p item = false) := by
  constructor
  · intro s1 s2
    unfold isDuplicatePair dupIdentityMatch dupSimilarityMatch
    simp [hc, hi]
  · intro hd hsA hsT
    have hBfalse : ¬ ((di - dc).natAbs ≤ 2) := by omega
    have hAfalse : ¬ (stringSimilarity
        (jsOrStr item.cleanedName (jsOrStr item.detectedName (jsOrStr item.tmdbName [])))
        (jsOrStr p.cleanedName (jsOrStr p.tmdbName [])) > 9 / 10) := not_lt.mpr hsA
    have hsm : dupSimilarityMatch p item = false := by
      unfold dupSimilarityMatch
      rcases htm : item.tmdbName with _ | a
      · simp only [htm, hc, hi] at hAfalse ⊢
        rw [decide_eq_false hAfalse, decide_eq_false hBfalse]
        simp
      · rcases htp : p.tmdbName with _ | b
        · simp only [htm, htp, hc, hi] at hAfalse ⊢
          rw [decide_eq_false hAfalse, decide_eq_false hBfalse]
          simp
        · have hT : ¬ (stringSimilarity a b > 9 / 10) := not_lt.mpr (hsT a b htm htp)
          simp only [htm, htp, hc, hi] at hAfalse ⊢
          rw [decide_eq_false hAfalse, decide_eq_false hBfalse, decide_eq_false hT]
          simp
    unfold isDuplicatePair
    rw [hsm]
    simp

/-- The edit-distance ratio of `vwxyz` against `abcde` is 0 ≤ 0.90. -/
theorem simHelper : stringSimilarity (jstr "vwxyz") (jstr "abcde") ≤ 9 / 10 := by
  have h1 : ¬ (jstr "vwxyz" = jstr "abcde") := by decide
  have h2 : ¬ (jsToLower (jstr "vwxyz") = jsToLower (jstr "abcde")) := by decide
  have hgt : ¬ ((jsToLower (jstr "vwxyz")).length > (jsToLower (jstr "abcde")).length) := by decide
  have hlev : levenshteinDistance (jsToLower (jstr "abcde")) (jsToLower (jstr "vwxyz")) = 5 := by
    decide
  unfold stringSimilarity
  rw [if_neg h1, if_neg h2]
  simp only [if_neg hgt]
  rw [hlev]
  norm_num [jsToLower, jstr]

/-- Witness for C9 at a concrete pair: same TMDB id (identity matches),
durations 100 and 200, dissimilar names — not flagged. -/
theorem claim9_duration_rules_witness : isDuplicatePair c9Params c9Item = false := by
  have h := claim9_duration_rules c9Params c9Item 100 200 rfl rfl
  refine h.2 (by decide) ?_ ?_
  · rw [show jsOrStr c9Item.cleanedName (jsOrStr c9Item.detectedName (jsOrStr c9Item.tmdbName [])) =
        jstr "vwxyz" from by decide,
      show jsOrStr c9Params.cleanedName (jsOrStr c9Params.tmdbName []) = jstr "abcde" from by decide]
    exact simHelper
  · intro a b hab hpb
    rw [show c9Item.tmdbName = none from rfl] at hab
    exact Option.noConfusion hab
